import Mathlib

/-
Verification of the RO connection and command-dispatch layer.

Shallow embedding of:
- RO/Comm/TCPConnection.py (connection state machine, state callbacks)
- RO/Comm/BaseSocket.py (Base._setState)
- RO/KeyDispatcher.py (command registry, timeout scan, refresh scheduling)

Components of this repository that are referenced but whose source files are
absent (RO.Alg.IDGen, RO.KeyVariable.CmdVar and KeyVar, RO.Comm.HubConnection)
are modelled from the specification; each such definition is marked with a doc
comment starting with: Modelled from the spec.

Synthesized hub-message data strings such as
  Timeout; Actor=...; Cmd=...
are abstracted to their leading classification keyword (a ReplyKind value);
the claims under study only inspect that classification, never the full text.
-/

namespace RO

/-- Connection states of RO.Comm.TCPConnection (class constants, lines 68 to 74). -/
inductive ConnState
  | Connecting
  | Authorizing
  | Connected
  | Disconnecting
  | Failing
  | Disconnected
  | Failed
deriving DecidableEq, Repr

namespace TCPConnection

/-- TCPConnection._AllStates (source lines 76 to 84). -/
def AllStates : List ConnState :=
  [.Connecting, .Authorizing, .Connected, .Disconnecting, .Failing, .Disconnected, .Failed]

/-- TCPConnection._ConnectedStates (source line 85). -/
def ConnectedStates : List ConnState := [.Connected]

/-- TCPConnection._DoneStates (source line 86): set((Connected, Disconnected, Failed)). -/
def DoneStates : List ConnState := [.Connected, .Disconnected, .Failed]

/-- TCPConnection._FailedStates (source line 87). -/
def FailedStates : List ConnState := [.Failed]

/-- TCPConnection.isConnected property (source lines 258 to 262):
self._state in self._ConnectedStates. -/
def isConnected (s : ConnState) : Bool := ConnectedStates.contains s

/-- TCPConnection.isDone property (source lines 264 to 268):
self._state in self._DoneStates. -/
def isDone (s : ConnState) : Bool := DoneStates.contains s

/-- TCPConnection.didFail property (source lines 270 to 274). -/
def didFail (s : ConnState) : Bool := FailedStates.contains s

/-- TCPConnection.mayConnect property (source lines 276 to 279):
self._state not in (Connected, Connecting, Authorizing). -/
def mayConnect (s : ConnState) : Bool :=
  !([ConnState.Connected, ConnState.Connecting, ConnState.Authorizing].contains s)

/-- A registered state callback of a TCPConnection.  The callback body is
abstracted to an identity and to whether invoking it raises an exception;
the claims under study only observe which callbacks run and whether an
exception escapes. -/
structure StateCallback where
  id : Nat
  raises : Bool
deriving DecidableEq, Repr

/-- The part of a TCPConnection observed by _setState (source lines 348 to 366):
the stored _state, _reason, and the _stateCallbacks list. -/
structure Conn where
  state : ConnState
  reason : String
  stateCallbacks : List StateCallback
deriving DecidableEq, Repr

/-- Result of one _setState call: the updated connection, the ids of the
callbacks that were invoked (in order), and the id of the callback whose
exception propagated out of the call, if any. -/
structure SetStateResult where
  conn : Conn
  invoked : List Nat
  raised : Option Nat
deriving DecidableEq, Repr

/-- The plain python for-loop over self._stateCallbacks in _setState
(source lines 365 to 366): each callback is called in registration order;
there is no try/except, so the first callback that raises stops the loop
and its exception propagates. -/
def runStateCallbacks : List StateCallback → List Nat × Option Nat
  | [] => ([], none)
  | cb :: rest =>
    if cb.raises then ([cb.id], some cb.id)
    else
      let (inv, r) := runStateCallbacks rest
      (cb.id :: inv, r)

/-- TCPConnection._setState (source lines 348 to 366):
record the old (state, reason) pair, store the new state, store the new
reason when one is given (cast to a string in the source), and, if the
observable pair changed, call every state callback in order.
The source raises RuntimeError when newState is not in _AllStates; every
ConnState constructor is in _AllStates, so that branch is unreachable here. -/
def setState (c : Conn) (newState : ConnState) (reason : Option String) : SetStateResult :=
  let oldStateReason := (c.state, c.reason)
  let newReason :=
    match reason with
    | some r => r
    | none => c.reason
  let c' : Conn := { c with state := newState, reason := newReason }
  if oldStateReason ≠ (newState, newReason) then
    let (inv, r) := runStateCallbacks c.stateCallbacks
    ⟨c', inv, r⟩
  else
    ⟨c', [], none⟩

/-- Spec-side description for the corrected claims C4 and C10: the callbacks
that actually get invoked are those up to and including the first raising
one; all of them when none raises. -/
def invokedUpToFirstRaiser : List StateCallback → List Nat
  | [] => []
  | cb :: rest => if cb.raises then [cb.id] else cb.id :: invokedUpToFirstRaiser rest

/-- Spec-side description: the first raising callback, if any. -/
def firstRaiser : List StateCallback → Option Nat
  | [] => none
  | cb :: rest => if cb.raises then some cb.id else firstRaiser rest

end TCPConnection

namespace BaseSocket

/-- Socket states of RO.Comm.BaseSocket.BaseSocket (integer class constants,
source lines 160 to 165). -/
def Connecting : Int := 4
def Connected : Int := 3
def Closing : Int := 2
def Failing : Int := 1
def Closed : Int := 0
def Failed : Int := -1

/-- BaseSocket._DoneStates (source line 175). -/
def DoneStates : List Int := [Closed, Failed]

/-- Base.isDone property (source lines 88 to 92). -/
def isDone (s : Int) : Bool := DoneStates.contains s

/-- The part of a BaseSocket.Base observed by Base._setState: the stored
state and reason and the single _stateCallback slot (none models the
nullCallback installed by _clearCallbacks). -/
structure Base where
  state : Int
  reason : String
  stateCallback : Option TCPConnection.StateCallback
deriving DecidableEq, Repr

/-- Result of one Base._setState call; error models the RuntimeError raised
when the object is already done.  caught is true when the state callback
raised and the exception was caught by the try/except of the source. -/
structure BaseSetStateResult where
  base : Base
  invoked : List Nat
  caught : Bool
deriving DecidableEq, Repr

/-- Base._setState (BaseSocket.py source lines 119 to 146):
raise RuntimeError if already done; store the new state and, when given,
the new reason; save the current callback; if the new state is done, clear
the callbacks; then call the saved callback inside try/except, so a raising
callback never propagates. -/
def setState (b : Base) (newState : Int) (reason : Option String) :
    Except String BaseSetStateResult :=
  if isDone b.state then
    .error "Already done; cannot change state"
  else
    let newReason :=
      match reason with
      | some r => r
      | none => b.reason
    let b1 : Base := { b with state := newState, reason := newReason }
    let savedCallback := b1.stateCallback
    let b2 : Base :=
      if isDone newState then { b1 with stateCallback := none } else b1
    match savedCallback with
    | none => .ok ⟨b2, [], false⟩
    | some cb => .ok ⟨b2, [cb.id], cb.raises⟩

end BaseSocket

/-- Hub message types (spec section 6): colon means done, f failed, w warning,
i information.  The external TypeDict lookup of RO.KeyVariable is not in src;
modelled from the spec. -/
inductive MsgType
  | done
  | failed
  | warning
  | info
deriving DecidableEq, Repr

/-- Modelled from the spec: a message type is terminal (ends a command) when
it is a done or failed classification (spec: success, failure, timeout and
abort replies are all delivered as terminal message types). -/
def MsgType.isTerminal : MsgType → Bool
  | .done => true
  | .failed => true
  | _ => false

/-- Classification of the data string of a message.  The source builds strings
such as: Timeout; Actor=...; Cmd=...  This embedding keeps only the leading
classification keyword, which is all the claims inspect. -/
inductive ReplyKind
  | notConnected
  | writeFailed
  | timeout
  | abortedDisconnected
  | hub
deriving DecidableEq, Repr

/-- The four Timer objects of KeyDispatcher.__init__ (source lines 151 to 154). -/
inductive TimerId
  | checkCmd
  | checkRemCmd
  | refreshAll
  | refreshNext
deriving DecidableEq, Repr

/-- Observable events of a dispatcher run: callback invocations, writes to the
connection, timer starts and cancels, warning log lines, and the stderr report
of the double-delete guard in _replyCmdVar (source lines 643 to 645).
hang records the unreachable situation in which the command-id allocation loop
of executeCmd finds every id of the range in use (the python loop would then
never terminate). -/
inductive Ev
  | reply (tag : Nat) (msgType : MsgType) (kind : ReplyKind)
  | write (cmdID : Nat) (actor : String) (cmdStr : String)
  | timerStart (t : TimerId)
  | timerCancel (t : TimerId)
  | logMsg (msgType : MsgType) (kind : ReplyKind)
  | logWarnRefreshFailed (actor : String) (cmdStr : String) (keywords : List String)
  | logWarnNoRefreshData (actor : String) (keywords : List String)
  | logWarnNoKeyVars (actor : String) (cmdStr : String)
  | bugDoubleDelete (cmdID : Nat)
  | hang
deriving DecidableEq, Repr

/-- Modelled from the spec: RO.KeyVariable.CmdVar (file not in src; spec
section 3, Command): id, actor, commandText, startTime, optional timeLimit,
optional abortText, isRefresh flag and done flag.  tag is the python object
identity, used to correlate callback events with the command they reach.
isRefreshCallback records that the command was created by the dispatcher with
callFunc = _refreshCmdCallback.  lastReply is the message type of the most
recent reply, from which didFail is derived. -/
structure CmdVar where
  tag : Nat
  actor : String := ""
  cmdStr : String := ""
  timeLim : Option Nat := none
  abortCmdStr : String := ""
  isRefresh : Bool := false
  isRefreshCallback : Bool := false
  cmdID : Option Nat := none
  startTime : Option Nat := none
  maxEndTime : Option Nat := none
  done : Bool := false
  lastReply : Option MsgType := none
deriving DecidableEq, Repr

/-- Modelled from the spec: CmdVar.reply delivers one message to the command
(its callback receives it; the reply event is recorded by the caller) and a
terminal message type marks the command done. -/
def CmdVar.reply (cv : CmdVar) (t : MsgType) : CmdVar :=
  { cv with done := cv.done || t.isTerminal, lastReply := some t }

/-- Modelled from the spec: CmdVar.didFail is true when the last reply was a
failure. -/
def CmdVar.didFail (cv : CmdVar) : Bool := cv.lastReply == some MsgType.failed

/-- Modelled from the spec: CmdVar._setStartInfo(dispatcher, cmdID) records the
command id and start time and computes maxEndTime = startTime + timeLim when a
time limit was given (spec section 4.3). -/
def CmdVar.setStartInfo (cv : CmdVar) (id : Nat) (now : Nat) : CmdVar :=
  { cv with cmdID := some id, startTime := some now,
            maxEndTime := cv.timeLim.map (fun t => now + t) }

/-- Modelled from the spec: RO.KeyVariable.KeyVar (file not in src; spec
section 3, KeyVar): actor, keyword (case-insensitive), isCurrent flag and
optional refresh command text; getRefreshInfo is the (actor, refreshCmd)
pair. -/
structure KeyVar where
  actor : String
  keyword : String
  isCurrent : Bool := false
  refreshCmd : Option String := none
deriving DecidableEq, Repr

/-- Modelled from the spec: KeyVar.hasRefreshCmd. -/
def KeyVar.hasRefreshCmd (kv : KeyVar) : Bool := kv.refreshCmd.isSome

/-- Modelled from the spec: KeyVar.getRefreshInfo = (actor, refresh command). -/
def KeyVar.getRefreshInfo (kv : KeyVar) : String × String :=
  (kv.actor, kv.refreshCmd.getD "")

/-- Modelled from the spec: KeyVar.set marks the variable current (spec
section 3: mutated only by Dispatcher.dispatch upon matching incoming data).
The converted values themselves are not observed by any claim. -/
def KeyVar.set (kv : KeyVar) : KeyVar := { kv with isCurrent := true }

/-- Modelled from the spec: KeyVar.setNotCurrent. -/
def KeyVar.setNotCurrent (kv : KeyVar) : KeyVar := { kv with isCurrent := false }

/-- Modelled from the spec: RO.Alg.IDGen (file not in src).  A wrapping id
generator over a closed range: KeyDispatcher.getMaxUserCmdID documents that
user command ids range 1 through 1000 and refresh command ids 1001 through
2000, and spec section 3 describes two disjoint wrapping ranges. -/
structure IDGen where
  minVal : Nat
  maxVal : Nat
  curr : Nat
deriving DecidableEq, Repr

/-- Modelled from the spec: IDGen.next returns the current id and advances,
wrapping back to minVal after maxVal. -/
def IDGen.next (g : IDGen) : Nat × IDGen :=
  (g.curr, { g with curr := if g.maxVal ≤ g.curr then g.minVal else g.curr + 1 })

/-- The generator state after one draw. -/
def IDGen.advance (g : IDGen) : IDGen := (g.next).2

/-- The generator state after n draws. -/
def IDGen.advanceN : Nat → IDGen → IDGen
  | 0, g => g
  | n + 1, g => IDGen.advanceN n g.advance

/-- A parsed hub message (spec section 6): commander, command id, actor,
message type and data.  fromSelf models the test
cmdr == self.connection.cmdr of dispatch (source line 290); data is the list
of keywords carried by the message (values are not observed by any claim). -/
structure MsgDict where
  fromSelf : Bool
  cmdID : Nat
  actor : String
  msgType : MsgType
  kind : ReplyKind
  data : List String := []
deriving DecidableEq, Repr

/-- The state of one KeyDispatcher (KeyDispatcher.__init__, source lines 130
to 169) plus the observable event log.
scanRem models the cmdVarIter iterator of _checkRemCmdTimeouts: the python
dict.values() call copies the CmdVar references, so the snapshot keeps stale
CmdVar objects even after registry entries change.
refreshRem models the refreshCmdItemIter iterator of _sendNextRefreshCmd
(none when no refresh pass is in progress).
tagGen supplies object identities for the CmdVar objects the dispatcher itself
creates. -/
structure DState where
  isConnected : Bool
  cmdDict : List (Nat × CmdVar) := []
  userGen : IDGen := ⟨1, 1000, 1⟩
  refreshGen : IDGen := ⟨1001, 2000, 1001⟩
  tagGen : Nat := 1000000
  keyVarListDict : List ((String × String) × List KeyVar) := []
  refreshCmdDict : List ((String × String) × List KeyVar) := []
  scanRem : List CmdVar := []
  refreshRem : Option (List ((String × String) × List KeyVar)) := none
  events : List Ev := []
deriving DecidableEq, Repr

/-- Association-list lookup, the model of python dict indexing. -/
def lookupKey {α : Type} [DecidableEq α] {β : Type} (k : α) : List (α × β) → Option β
  | [] => none
  | (k', v) :: rest => if k = k' then some v else lookupKey k rest

/-- Association-list key test, the model of dict.has_key. -/
def containsKey {α : Type} [DecidableEq α] {β : Type} (k : α) (l : List (α × β)) : Bool :=
  (lookupKey k l).isSome

/-- Association-list deletion, the model of del dict[k]. -/
def eraseKey {α : Type} [DecidableEq α] {β : Type} (k : α) (l : List (α × β)) :
    List (α × β) :=
  l.filter (fun (e : α × β) => e.1 ≠ k)

/-- Append an event to the log (the log is newest-first). -/
def addEv (d : DState) (e : Ev) : DState := { d with events := e :: d.events }

/-- Lowercase one ascii character, part of the model of the python
str.lower() method. -/
def lowerChar (c : Char) : Char :=
  if 'A' ≤ c && c ≤ 'Z' then Char.ofNat (c.toNat + 32) else c

/-- Model of the python str.lower() method (ascii keywords). -/
def strLower (s : String) : String := ⟨s.data.map lowerChar⟩

/-- Code-point comparison of characters. -/
def charLt (a b : Char) : Bool := a.toNat < b.toNat

/-- Lexicographic comparison of character lists, the order python uses to
compare strings. -/
def charListLt : List Char → List Char → Bool
  | [], [] => false
  | [], _ :: _ => true
  | _ :: _, [] => false
  | a :: as, b :: bs => charLt a b || (a == b && charListLt as bs)

/-- Lexicographic string comparison by code point, the order of the python
sorted() builtin on strings. -/
def strLt (a b : String) : Bool := charListLt a.data b.data

/-- Insert a string into an ascending list, part of the model of the python
sorted() builtin. -/
def insertSorted (s : String) : List String → List String
  | [] => [s]
  | x :: rest => if strLt s x then s :: x :: rest else x :: insertSorted s rest

/-- Model of the python sorted() builtin on lists of strings (insertion
sort by the lexicographic order). -/
def sortStrings : List String → List String
  | [] => []
  | x :: rest => insertSorted x (sortStrings rest)

namespace KeyDispatcher

/-- KeyDispatcher.makeMsgDict (source lines 433 to 463): a synthesized hub
message from this commander, message type f (failed), with the given command
id (default 0) and data classification. -/
def makeMsgDict (cmdID : Nat) (kind : ReplyKind) : MsgDict :=
  { fromSelf := true, cmdID := cmdID, actor := "KeyDispatcher",
    msgType := .failed, kind := kind, data := [] }

/-- KeyDispatcher._refreshCmdCallback (source lines 598 to 624): once the
refresh command is done, look up the keyVar set registered for its
(actor, cmdStr) pair; if the command failed, log one warning listing the
sorted keywords of the set; otherwise warn about keyVars that are still not
current, or about an empty set. -/
def refreshCmdCallback (d : DState) (cv : CmdVar) : DState :=
  if !cv.done then d
  else
    let refreshInfo := (cv.actor, cv.cmdStr)
    let keyVarSet := (lookupKey refreshInfo d.refreshCmdDict).getD []
    if cv.didFail then
      addEv d (.logWarnRefreshFailed cv.actor cv.cmdStr
        (sortStrings (keyVarSet.map KeyVar.keyword)))
    else
      match keyVarSet with
      | [] => addEv d (.logWarnNoKeyVars cv.actor cv.cmdStr)
      | aKeyVar :: _ =>
        let missing := sortStrings
          ((keyVarSet.filter (fun kv => !kv.isCurrent)).map KeyVar.keyword)
        if missing.isEmpty then d
        else addEv d (.logWarnNoRefreshData aKeyVar.actor missing)

/-- KeyDispatcher._replyCmdVar (source lines 626 to 645): optionally log the
message, deliver it to the command (recording the callback invocation as a
reply event; a command created with callFunc = _refreshCmdCallback runs that
callback inside the delivery), and, when the command is done and has a
command id, delete that id from the command dict, reporting the dispatcher
bug to stderr when the id is absent. -/
def replyCmdVar (d : DState) (cv : CmdVar) (m : MsgDict) (doLog : Bool) : DState :=
  let d0 := if doLog then addEv d (.logMsg m.msgType m.kind) else d
  let cv' := cv.reply m.msgType
  let d1 := addEv d0 (.reply cv.tag m.msgType m.kind)
  let d2 := if cv'.isRefreshCallback then refreshCmdCallback d1 cv' else d1
  if cv'.done then
    match cv'.cmdID with
    | some i =>
      if containsKey i d2.cmdDict then { d2 with cmdDict := eraseKey i d2.cmdDict }
      else addEv d2 (.bugDoubleDelete i)
    | none => d2
  else d2

/-- The while-loop of KeyDispatcher.executeCmd (source lines 347 to 353):
draw ids from the generator until one not currently in cmdDict is found.
The fuel is the size of the range; the source loop would run forever if every
id of the range were in use, which allocCmdID reports as none. -/
def allocLoop (g : IDGen) (used : List Nat) : Nat → Option (Nat × IDGen)
  | 0 => none
  | fuel + 1 =>
    let (v, g') := g.next
    if used.contains v then allocLoop g' used fuel else some (v, g')

/-- Id allocation of executeCmd: the generator is chosen by the isRefresh
flag of the command (source lines 348 to 351). -/
def allocCmdID (d : DState) (isRefresh : Bool) : Option (Nat × IDGen) :=
  let g := if isRefresh then d.refreshGen else d.userGen
  allocLoop g (d.cmdDict.map Prod.fst) (g.maxVal + 1 - g.minVal)

/-- KeyDispatcher.executeCmd (source lines 323 to 372): when not connected,
synthesize an immediate failed reply classified not-connected and return
without touching cmdDict or the connection; otherwise allocate a command id
(skipping ids in use), register the command, record its start info, and
write the serialized command to the connection; a write failure synthesizes
a write-failed reply, which retires the command immediately. -/
def executeCmd (d : DState) (cv : CmdVar) (now : Nat) (writeFails : Bool) : DState :=
  if !d.isConnected then
    replyCmdVar d cv (makeMsgDict 0 .notConnected) true
  else
    match allocCmdID d cv.isRefresh with
    | none => addEv d .hang
    | some (i, g') =>
      let d0 := if cv.isRefresh then { d with refreshGen := g' } else { d with userGen := g' }
      let cv' := cv.setStartInfo i now
      let d1 := { d0 with cmdDict := d0.cmdDict ++ [(i, cv')] }
      if writeFails then
        replyCmdVar d1 cv' (makeMsgDict i .writeFailed) true
      else
        addEv d1 (.write i cv'.actor cv'.cmdStr)

/-- The liveness test of the scan loop (source line 555):
self.cmdDict.has_key(cmdVar.cmdID).  A CmdVar whose id is absent from the
registry is skipped. -/
def cmdLive (d : DState) (cv : CmdVar) : Bool :=
  match cv.cmdID with
  | some i => containsKey i d.cmdDict
  | none => false

/-- The time-limit test of the scan loop (source line 566):
cmdVar.maxEndTime and (cmdVar.maxEndTime < currTime); a maxEndTime of 0 is
falsy in python and disables the test. -/
def expired (now : Nat) (cv : CmdVar) : Bool :=
  match cv.maxEndTime with
  | some t => t ≠ 0 && t < now
  | none => false

/-- The for-loop of KeyDispatcher._checkRemCmdTimeouts (source lines 552 to
573): walk the remaining snapshot; skip commands whose id is no longer
registered; when not connected, fail the command with an aborted-disconnected
message (clearing its abortCmdStr, since no abort can be sent); otherwise
fail the first command past its time limit with a timeout message.  Returns
the failed CmdVar, the synthesized message and the rest of the snapshot. -/
def findTimeout (d : DState) (now : Nat) : List CmdVar → Option (CmdVar × MsgDict × List CmdVar)
  | [] => none
  | cv :: rest =>
    if !(cmdLive d cv) then findTimeout d now rest
    else if !d.isConnected then
      some ({ cv with abortCmdStr := "" },
            makeMsgDict (cv.cmdID.getD 0) .abortedDisconnected, rest)
    else if expired now cv then
      some (cv, makeMsgDict (cv.cmdID.getD 0) .timeout, rest)
    else findTimeout d now rest

/-- KeyDispatcher._checkRemCmdTimeouts (source lines 537 to 587): check the
remaining snapshot; on finding one command to fail, reply to it immediately
and start _checkRemCmdTimer to resume with the rest on the next tick.  The
final statement of the source, reached on every call, starts _checkCmdTimer
to re-run the full checkCmdTimeouts at the usual interval. -/
def checkRemCmdTimeouts (d : DState) (now : Nat) : DState :=
  let d' :=
    match findTimeout d now d.scanRem with
    | none => { d with scanRem := [] }
    | some (cv, msg, rest) =>
      let d1 := replyCmdVar d cv msg true
      let d2 := { d1 with scanRem := rest }
      addEv d2 (.timerStart .checkRemCmd)
  addEv d' (.timerStart .checkCmd)

/-- KeyDispatcher.checkCmdTimeouts (source lines 237 to 248): cancel both
scan timers, snapshot the registered commands (iter over a copy of
cmdDict.values()), and run the first _checkRemCmdTimeouts step at once. -/
def checkCmdTimeouts (d : DState) (now : Nat) : DState :=
  let d0 := addEv (addEv d (.timerCancel .checkCmd)) (.timerCancel .checkRemCmd)
  let d1 := { d0 with scanRem := d0.cmdDict.map Prod.snd }
  checkRemCmdTimeouts d1 now

/-- KeyDispatcher.dispatch (source lines 250 to 295): for every keyword of
the message, update the keyVars registered under (actor, keyword.lower()),
where an actor of the form keys.X is folded to X; then, if this dispatcher is
the commander of the message, forward the reply to the outstanding command
with the message command id, without logging. -/
def dispatch (d : DState) (m : MsgDict) : DState :=
  let keyActor := if m.actor.startsWith "keys." then m.actor.drop 5 else m.actor
  let kvld := m.data.foldl
    (fun (acc : List ((String × String) × List KeyVar)) keywd =>
      acc.map (fun entry =>
        if entry.1 = (keyActor, strLower keywd) then (entry.1, entry.2.map KeyVar.set)
        else entry))
    d.keyVarListDict
  let d1 := { d with keyVarListDict := kvld }
  if m.fromSelf then
    match lookupKey m.cmdID d1.cmdDict with
    | some cv => replyCmdVar d1 cv m false
    | none => d1
  else d1

/-- KeyDispatcher.addKeyVar (source lines 207 to 235): append the keyVar to
the list under (actor, keyword.lower()); when it has a refresh command, add
it to the refreshCmdDict set for its refresh info, and, when connected,
start _refreshAllTimer to schedule a refresh pass. -/
def addKeyVar (d : DState) (kv : KeyVar) : DState :=
  let dictKey := (kv.actor, strLower kv.keyword)
  let kvld :=
    if containsKey dictKey d.keyVarListDict then
      d.keyVarListDict.map (fun entry =>
        if entry.1 = dictKey then (entry.1, entry.2 ++ [kv]) else entry)
    else d.keyVarListDict ++ [(dictKey, [kv])]
  let d1 := { d with keyVarListDict := kvld }
  if kv.hasRefreshCmd then
    let info := kv.getRefreshInfo
    let rcd :=
      if containsKey info d1.refreshCmdDict then
        d1.refreshCmdDict.map (fun entry =>
          if entry.1 = info then (entry.1, entry.2 ++ [kv]) else entry)
      else d1.refreshCmdDict ++ [(info, [kv])]
    let d2 := { d1 with refreshCmdDict := rcd }
    if d2.isConnected then addEv d2 (.timerStart .refreshAll) else d2
  else d1

/-- KeyDispatcher._updateRefreshCmds (source lines 523 to 535): rebuild
refreshCmdDict from scratch by scanning every registered keyVar and grouping
those with a refresh command by their (actor, refresh command) info. -/
def updateRefreshCmds (d : DState) : DState :=
  let rcd := d.keyVarListDict.foldl
    (fun acc entry =>
      entry.2.foldl
        (fun (acc : List ((String × String) × List KeyVar)) kv =>
          if kv.hasRefreshCmd then
            let info := kv.getRefreshInfo
            if containsKey info acc then
              acc.map (fun e => if e.1 = info then (e.1, e.2 ++ [kv]) else e)
            else acc ++ [(info, [kv])]
          else acc)
        acc)
    []
  { d with refreshCmdDict := rcd }

/-- KeyDispatcher._sendNextRefreshCmd (source lines 647 to 682): do nothing
if not connected; with a fresh pass (no iterator yet), rebuild
refreshCmdDict and iterate its items; issue one refresh CmdVar (time limit
_RefreshTimeLim = 20, callFunc = _refreshCmdCallback, isRefresh) for the
next item and start _refreshNextTimer to resume with the rest; stop silently
once the iterator is exhausted. -/
def sendNextRefreshCmd (d : DState) (useExisting : Bool) (now : Nat) (writeFails : Bool) :
    DState :=
  if !d.isConnected then d
  else
    let dIter :=
      if useExisting then (d, d.refreshRem.getD [])
      else
        let d' := updateRefreshCmds d
        (d', d'.refreshCmdDict)
    let d0 := dIter.1
    match dIter.2 with
    | [] => { d0 with refreshRem := some [] }
    | (info, _) :: rest =>
      let cv : CmdVar :=
        { tag := d0.tagGen, actor := info.1, cmdStr := info.2,
          timeLim := some 20, isRefresh := true, isRefreshCallback := true }
      let d1 := { d0 with tagGen := d0.tagGen + 1 }
      let d2 := executeCmd d1 cv now writeFails
      let d3 := { d2 with refreshRem := some rest }
      addEv d3 (.timerStart .refreshNext)

/-- KeyDispatcher.refreshAllVar (source lines 465 to 486): cancel the two
refresh timers, set every registered keyVar not current (resetAll defaults
to true), and run the first _sendNextRefreshCmd step with a fresh
iterator. -/
def refreshAllVar (d : DState) (now : Nat) (writeFails : Bool) : DState :=
  let d0 := addEv (addEv d (.timerCancel .refreshAll)) (.timerCancel .refreshNext)
  let d1 := { d0 with
    keyVarListDict := d0.keyVarListDict.map
      (fun entry => (entry.1, entry.2.map KeyVar.setNotCurrent)) }
  sendNextRefreshCmd d1 false now writeFails

/-- KeyDispatcher._connStateCallback (source lines 589 to 596): record the
new connection state; when it changed, start _refreshAllTimer to schedule a
refresh pass. -/
def connStateCallback (d : DState) (isConn : Bool) : DState :=
  let wasConnected := d.isConnected
  let d1 := { d with isConnected := isConn }
  if wasConnected ≠ isConn then addEv d1 (.timerStart .refreshAll) else d1

/-- One unit of work of the single-threaded event loop driving the
dispatcher: a call of executeCmd (writeFails tells whether the connection
write raises), an incoming parsed message handed to dispatch, the firing of
one of the four timers, or a connection state change. -/
inductive Action
  | execute (cv : CmdVar) (now : Nat) (writeFails : Bool)
  | deliver (m : MsgDict)
  | startScan (now : Nat)
  | scanTick (now : Nat)
  | connState (isConn : Bool)
  | refreshAllTick (now : Nat) (writeFails : Bool)
  | refreshNextTick (now : Nat) (writeFails : Bool)
deriving DecidableEq, Repr

/-- The event-loop step function: each action runs the corresponding
dispatcher entry point. -/
def step (d : DState) : Action → DState
  | .execute cv now writeFails => executeCmd d cv now writeFails
  | .deliver m => dispatch d m
  | .startScan now => checkCmdTimeouts d now
  | .scanTick now => checkRemCmdTimeouts d now
  | .connState isConn => connStateCallback d isConn
  | .refreshAllTick now writeFails => refreshAllVar d now writeFails
  | .refreshNextTick now writeFails => sendNextRefreshCmd d true now writeFails

/-- Run a list of event-loop actions in order. -/
def run (d : DState) : List Action → DState
  | [] => d
  | a :: rest => run (step d a) rest

/-- The reply events of the log (callback invocations), newest first. -/
def replyEvs (d : DState) : List Ev :=
  d.events.filter (fun e => match e with | .reply _ _ _ => true | _ => false)

/-- How many terminal replies reach the command with the given object
identity in an event list. -/
def repliesCount (evs : List Ev) (tag : Nat) : Nat :=
  (evs.filter (fun e =>
    match e with
    | .reply t mt _ => t == tag && mt.isTerminal
    | _ => false)).length

/-- How many terminal replies the command with the given object identity has
received. -/
def terminalRepliesTo (d : DState) (tag : Nat) : Nat :=
  repliesCount d.events tag

/-- All replies received by the command with the given object identity,
newest first. -/
def repliesTo (d : DState) (tag : Nat) : List Ev :=
  d.events.filter (fun e =>
    match e with
    | .reply t _ _ => t == tag
    | _ => false)

/-- The write events of the log, newest first. -/
def writeEvs (d : DState) : List Ev :=
  d.events.filter (fun e => match e with | .write _ _ _ => true | _ => false)

/-- The warning-severity log events, newest first. -/
def warnEvs (d : DState) : List Ev :=
  d.events.filter (fun e =>
    match e with
    | .logWarnRefreshFailed _ _ _ => true
    | .logWarnNoRefreshData _ _ => true
    | .logWarnNoKeyVars _ _ => true
    | _ => false)

/-- Whether the registry currently holds the given command id. -/
def registryHas (d : DState) (i : Nat) : Bool := containsKey i d.cmdDict

/-- The number of timer-start events for the given timer in the log. -/
def timerStarts (d : DState) (t : TimerId) : Nat :=
  (d.events.filter (fun e => e == .timerStart t)).length

/-- Spec-side companion of findTimeout for claim C6: whether the scan would
fail this command now (its id is still registered, and either the connection
is down or its time limit has passed). -/
def qualifies (d : DState) (now : Nat) (cv : CmdVar) : Bool :=
  cmdLive d cv && (!d.isConnected || expired now cv)

/-- Spec-side companion of findTimeout for claim C6: the first command of the
snapshot that qualifies for failure, with the commands after it. -/
def firstFailing (d : DState) (now : Nat) : List CmdVar → Option (CmdVar × List CmdVar)
  | [] => none
  | cv :: rest =>
    if qualifies d now cv then some (cv, rest) else firstFailing d now rest

/-- The CmdVar object on which the scan delivers the failure reply: when
disconnected, its abortCmdStr is cleared first. -/
def failedCmd (d : DState) (cv : CmdVar) : CmdVar :=
  if !d.isConnected then { cv with abortCmdStr := "" } else cv

/-- The message the scan synthesizes for a failing command. -/
def failMsg (d : DState) (cv : CmdVar) : MsgDict :=
  if !d.isConnected then makeMsgDict (cv.cmdID.getD 0) .abortedDisconnected
  else makeMsgDict (cv.cmdID.getD 0) .timeout

/-- The reply classification the scan delivers for a failing command. -/
def failKind (d : DState) : ReplyKind :=
  if !d.isConnected then .abortedDisconnected else .timeout

/-- A dispatcher whose connection reports connected. -/
def dConn : DState := { isConnected := true }

/-- A dispatcher whose connection was never made ready. -/
def dNotConn : DState := { isConnected := false }

/-- Claim C3 scenario: the command under study, carrying a 1 second time
limit. -/
def cv5spec : CmdVar := { tag := 5000, actor := "act", cmdStr := "go", timeLim := some 1 }

/-- Claim C3 scenario: filler commands issued before the command under study
so that it draws command id 5. -/
def fillerCmd (k : Nat) : CmdVar := { tag := 100 + k, actor := "act", cmdStr := "fill" }

/-- Claim C3 scenario, as the claim words it: the command is issued on a
connection that is never made ready, and the timeout scan runs after the
1 second limit. -/
def c3NotConnTrace : List Action := [.execute cv5spec 0 false, .startScan 2]

/-- Claim C3 scenario, amended: the command is issued while connected (as the
fifth command, so its id is 5), no reply ever arrives, and the timeout scan
runs after the 1 second limit. -/
def c3ConnTrace : List Action :=
  (List.range 4).map (fun k => .execute (fillerCmd k) 0 false) ++
    [.execute cv5spec 0 false, .startScan 3]

/-- Claim C7 scenario: one outstanding command with a 1 second limit. -/
def cv7spec : CmdVar := { tag := 70, actor := "act", cmdStr := "slow", timeLim := some 1 }

/-- Claim C7 scenario: issue the command, then let the full timeout scan fire
after the limit has passed; the scan step finds the failure. -/
def c7Trace : List Action := [.execute cv7spec 0 false, .startScan 3]

/-- Claim C9 scenario: a keyword variable Temp of actor env refreshed by the
command refresh. -/
def kvTemp : KeyVar := { actor := "env", keyword := "Temp", refreshCmd := some "refresh" }

/-- Claim C9 scenario: a keyword variable Pressure of actor env sharing the
same refresh command. -/
def kvPressure : KeyVar := { actor := "env", keyword := "Pressure", refreshCmd := some "refresh" }

/-- Claim C9 scenario: a dispatcher with the two keyword variables registered
before the connection comes up. -/
def d9 : DState := addKeyVar (addKeyVar { isConnected := false } kvTemp) kvPressure

/-- Claim C9 scenario: the failure reply of the hub to the refresh command
(which received id 1001, the first refresh-range id). -/
def failMsg9 : MsgDict :=
  { fromSelf := true, cmdID := 1001, actor := "env", msgType := .failed, kind := .hub }

/-- Claim C9 scenario: connect, run the refresh pass to exhaustion, then the
refresh command fails. -/
def c9Trace : List Action :=
  [.connState true, .refreshAllTick 0 false, .refreshNextTick 0 false, .deliver failMsg9]

/-- Claim C1 trace: the command that times out first, opening a partial scan. -/
def cvXspec : CmdVar := { tag := 10, actor := "a", cmdStr := "x", timeLim := some 1 }

/-- Claim C1 trace: the command that completes normally while the partial
scan holding its stale CmdVar reference is pending. -/
def cvAspec : CmdVar := { tag := 11, actor := "a", cmdStr := "slow" }

/-- Claim C1 trace: the new command that reuses command id 2 after the
generator wraps. -/
def cvBspec : CmdVar := { tag := 12, actor := "a", cmdStr := "new" }

/-- Claim C1 trace: the successful hub reply that completes the command with
id 2. -/
def doneMsgA : MsgDict :=
  { fromSelf := true, cmdID := 2, actor := "a", msgType := .done, kind := .hub }

/-- Claim C1 trace: throwaway commands whose connection write fails, so each
is retired at once; they only advance the user id generator. -/
def dummySpec (k : Nat) : CmdVar := { tag := 100 + k, actor := "a", cmdStr := "d" }

/-- Claim C1 trace: n consecutive executeCmd calls of throwaway commands. -/
def dummyActs : Nat → Nat → List Action
  | _, 0 => []
  | k, n + 1 => .execute (dummySpec k) 10 true :: dummyActs (k + 1) n

/-- Claim C1 trace, first part: two commands are issued; the scan fails the
first and leaves the second in its pending iterator; a hub reply then
completes and retires the second. -/
def c1Prefix : List Action :=
  [.execute cvXspec 0 false, .execute cvAspec 0 false, .startScan 10, .deliver doneMsgA]

/-- Claim C1 trace, last part: the new command is issued and receives the
recycled id 2, the connection drops, and the pending scan step runs, meeting
the stale CmdVar of the retired command. -/
def c1Suffix : List Action := [.execute cvBspec 10 false, .connState false, .scanTick 11]

/-- Claim C1 trace: prefix, 999 throwaway commands wrapping the user id
generator back so that the next allocation yields id 2, then the suffix. -/
def c1Trace : List Action := c1Prefix ++ dummyActs 0 999 ++ c1Suffix

/-- The registered form of the command cvAspec (command id 2, started at
time 0), as the pending scan snapshot holds it. -/
def cvAreg : CmdVar :=
  { tag := 11, actor := "a", cmdStr := "slow", cmdID := some 2, startTime := some 0 }

/-- The dispatcher state after the C1 prefix, computed by evaluation. -/
def dPre : DState :=
  { isConnected := true, cmdDict := [], userGen := ⟨1, 1000, 3⟩,
    refreshGen := ⟨1001, 2000, 1001⟩, tagGen := 1000000, keyVarListDict := [],
    refreshCmdDict := [], scanRem := [cvAreg], refreshRem := none,
    events :=
      [.reply 11 .done .hub, .timerStart .checkCmd, .timerStart .checkRemCmd,
       .reply 10 .failed .timeout, .logMsg .failed .timeout,
       .timerCancel .checkRemCmd, .timerCancel .checkCmd,
       .write 2 "a" "slow", .write 1 "a" "x"] }

/-- The dispatcher state entering the C1 suffix: like dPre but with the user
id generator wrapped around to 2 and an arbitrary accumulated event log. -/
def dMidC1 (ev : List Ev) : DState := { dPre with userGen := ⟨1, 1000, 2⟩, events := ev }

/-- The events the C1 suffix adds: the new command is written with id 2; the
stale scan entry then draws an aborted-disconnected reply addressed to the
retired command (tag 11) and deletes registry entry 2, which now belongs to
the new command (tag 12). -/
def c1SuffixEvs : List Ev :=
  [.timerStart .checkCmd, .timerStart .checkRemCmd,
   .reply 11 .failed .abortedDisconnected, .logMsg .failed .abortedDisconnected,
   .timerStart .refreshAll, .write 2 "a" "new"]

/-- The dispatcher state after the whole C1 trace. -/
def dEndC1 (ev : List Ev) : DState :=
  { dPre with
    isConnected := false, userGen := ⟨1, 1000, 3⟩, scanRem := [],
    events := c1SuffixEvs ++ ev }

/-- The events one startScan adds when the registry and the scan snapshot are
both empty. -/
def scanEmptyEvs : List Ev :=
  [.timerStart .checkCmd, .timerCancel .checkRemCmd, .timerCancel .checkCmd]

/-- Claim C6 witness input: a disconnected dispatcher with one outstanding
command and a scan snapshot holding it. -/
def dC6 : DState := { isConnected := false, cmdDict := [(2, cvAreg)], scanRem := [cvAreg] }

/-- The id-range discipline of one registry entry: refresh commands hold ids
of the refresh range 1001 through 2000, user commands of the user range 1
through 1000 (KeyDispatcher.getMaxUserCmdID and spec section 3). -/
def entryOK (e : Nat × CmdVar) : Prop :=
  (e.2.isRefresh = true ∧ 1001 ≤ e.1 ∧ e.1 ≤ 2000) ∨
  (e.2.isRefresh = false ∧ 1 ≤ e.1 ∧ e.1 ≤ 1000)

instance entryOK.instDecidable (e : Nat × CmdVar) : Decidable (entryOK e) := by
  unfold entryOK; infer_instance

/-- A well-formed generator for the closed range lo through hi. -/
def genOK (g : IDGen) (lo hi : Nat) : Prop :=
  g.minVal = lo ∧ g.maxVal = hi ∧ lo ≤ g.curr ∧ g.curr ≤ hi

instance genOK.instDecidable (g : IDGen) (lo hi : Nat) : Decidable (genOK g lo hi) := by
  unfold genOK; infer_instance

/-- The command-registry invariant of claim C5: registered ids are pairwise
distinct, every entry respects the range of its kind, and the two id
generators are within their disjoint ranges. -/
def WF (d : DState) : Prop :=
  (d.cmdDict.map Prod.fst).Nodup ∧
  (∀ e ∈ d.cmdDict, entryOK e) ∧
  genOK d.userGen 1 1000 ∧ genOK d.refreshGen 1001 2000

instance WF.instDecidable (d : DState) : Decidable (WF d) := by
  unfold WF; infer_instance

theorem run_append (d : DState) (l1 l2 : List Action) :
    run d (l1 ++ l2) = run (run d l1) l2 := by
  induction l1 generalizing d with
  | nil => rfl
  | cons a rest ih => simp [run, ih]

theorem repliesCount_append (a b : List Ev) (t : Nat) :
    repliesCount (a ++ b) t = repliesCount a t + repliesCount b t := by
  simp [repliesCount, List.filter_append]

theorem advanceN_add (a b : Nat) (g : IDGen) :
    IDGen.advanceN (a + b) g = IDGen.advanceN b (IDGen.advanceN a g) := by
  induction a generalizing g with
  | zero => simp [IDGen.advanceN]
  | succ a ih =>
    have h : a + 1 + b = (a + b) + 1 := by omega
    rw [h]
    show IDGen.advanceN (a + b) g.advance = _
    rw [ih]
    rfl

theorem allocLoop_nil (g : IDGen) (f : Nat) :
    allocLoop g [] (f + 1) = some g.next := by
  simp [allocLoop, IDGen.next]

theorem dummy_step (d : DState) (k now : Nat)
    (hc : d.isConnected = true) (hd : d.cmdDict = [])
    (hmin : d.userGen.minVal = 1) (hmax : d.userGen.maxVal = 1000) :
    step d (.execute (dummySpec k) now true) =
    { d with
      userGen := d.userGen.advance,
      events := .reply (100 + k) .failed .writeFailed ::
                .logMsg .failed .writeFailed :: d.events } := by
  obtain ⟨conn, dict, ug, rg, tg, kvld, rcd, sr, rr, ev⟩ := d
  obtain ⟨mn, mx, cu⟩ := ug
  simp only at hc hd hmin hmax
  subst hc hd hmin hmax
  show executeCmd _ _ _ _ = _
  simp [executeCmd, allocCmdID, dummySpec, replyCmdVar, CmdVar.reply, CmdVar.setStartInfo,
        makeMsgDict, addEv, containsKey, lookupKey, eraseKey, refreshCmdCallback,
        allocLoop_nil, IDGen.next, IDGen.advance, MsgType.isTerminal]

theorem dummy_block : ∀ (n k : Nat) (d : DState),
    d.isConnected = true → d.cmdDict = [] →
    d.userGen.minVal = 1 → d.userGen.maxVal = 1000 →
    ∃ evs : List Ev, repliesCount evs 12 = 0 ∧
      run d (dummyActs k n) =
        { d with userGen := IDGen.advanceN n d.userGen, events := evs ++ d.events } := by
  intro n
  induction n with
  | zero =>
    intro k d _ _ _ _
    exact ⟨[], rfl, by simp [dummyActs, run, IDGen.advanceN]⟩
  | succ n ih =>
    intro k d hc hd hmin hmax
    have hstep := dummy_step d k 10 hc hd hmin hmax
    have hrun : run d (dummyActs k (n + 1)) =
        run (step d (.execute (dummySpec k) 10 true)) (dummyActs (k + 1) n) := rfl
    rw [hrun, hstep]
    obtain ⟨evs, hcount, hres⟩ := ih (k + 1)
      { d with
        userGen := d.userGen.advance,
        events := .reply (100 + k) .failed .writeFailed ::
                  .logMsg .failed .writeFailed :: d.events }
      (by simp [hc]) (by simp [hd]) (by simp [IDGen.advance, IDGen.next, hmin])
      (by simp [IDGen.advance, IDGen.next, hmax])
    refine ⟨evs ++ [.reply (100 + k) .failed .writeFailed, .logMsg .failed .writeFailed],
      ?_, ?_⟩
    · rw [repliesCount_append, hcount]
      simp [repliesCount]
      omega
    · rw [hres]
      simp [IDGen.advanceN]

set_option maxRecDepth 4000 in
theorem c1_prefix_eval : run dConn c1Prefix = dPre := by decide

set_option maxRecDepth 40000 in
theorem advanceN_chunk1 : IDGen.advanceN 250 ⟨1, 1000, 3⟩ = ⟨1, 1000, 253⟩ := by decide

set_option maxRecDepth 40000 in
theorem advanceN_chunk2 : IDGen.advanceN 250 ⟨1, 1000, 253⟩ = ⟨1, 1000, 503⟩ := by decide

set_option maxRecDepth 40000 in
theorem advanceN_chunk3 : IDGen.advanceN 250 ⟨1, 1000, 503⟩ = ⟨1, 1000, 753⟩ := by decide

set_option maxRecDepth 40000 in
theorem advanceN_chunk4 : IDGen.advanceN 249 ⟨1, 1000, 753⟩ = ⟨1, 1000, 2⟩ := by decide

theorem advanceN_999 : IDGen.advanceN 999 ⟨1, 1000, 3⟩ = ⟨1, 1000, 2⟩ := by
  have h : (999 : Nat) = 250 + (250 + (250 + 249)) := by norm_num
  rw [h, advanceN_add, advanceN_chunk1, advanceN_add, advanceN_chunk2, advanceN_add,
    advanceN_chunk3, advanceN_chunk4]

theorem c1_suffix_eval (ev : List Ev) :
    run (dMidC1 ev) c1Suffix = dEndC1 ev := by rfl

theorem scan_empty_step (d : DState) (now : Nat)
    (hd : d.cmdDict = []) (hs : d.scanRem = []) :
    step d (.startScan now) = { d with events := scanEmptyEvs ++ d.events } := by
  obtain ⟨conn, dict, ug, rg, tg, kvld, rcd, sr, rr, ev⟩ := d
  simp only at hd hs
  subst hd hs
  simp [step, checkCmdTimeouts, checkRemCmdTimeouts, findTimeout, addEv, scanEmptyEvs]

theorem scan_empty (k now : Nat) : ∀ (d : DState),
    d.cmdDict = [] → d.scanRem = [] →
    (run d (List.replicate k (.startScan now))).cmdDict = [] ∧
    (run d (List.replicate k (.startScan now))).scanRem = [] ∧
    repliesCount (run d (List.replicate k (.startScan now))).events 12 =
      repliesCount d.events 12 := by
  induction k with
  | zero => intro d hd hs; exact ⟨hd, hs, rfl⟩
  | succ k ih =>
    intro d hd hs
    have hstep := scan_empty_step d now hd hs
    have hrun : run d (List.replicate (k + 1) (.startScan now)) =
        run (step d (.startScan now)) (List.replicate k (.startScan now)) := rfl
    rw [hrun, hstep]
    obtain ⟨h1, h2, h3⟩ := ih { d with events := scanEmptyEvs ++ d.events }
      (by simp [hd]) (by simp [hs])
    refine ⟨h1, h2, ?_⟩
    rw [h3]
    simp [repliesCount, scanEmptyEvs]

/-- C1: the claim says every command issued through executeCmd eventually
receives exactly one terminal reply and is removed from the registry when
that reply is delivered.  The code violates the never-zero half: in the
c1Trace run, the command with object identity 12 is issued while connected
(its serialized form, id 2, is written to the connection), yet it receives
zero terminal replies; the pending timeout-scan iterator still held the
stale CmdVar of the earlier command that had owned id 2, and on the scan
tick that stale entry passes the registry liveness test, draws the
aborted-disconnected reply (addressed to the retired command, tag 11), and
deletes registry entry 2, which by then belongs to the new command.  The
command is gone from the registry without any callback, and any number of
later full scans never reply to it. -/
theorem C1_stale_scan_silences_command :
    terminalRepliesTo (run dConn c1Trace) 12 = 0 ∧
    registryHas (run dConn c1Trace) 2 = false ∧
    Ev.write 2 "a" "new" ∈ (run dConn c1Trace).events ∧
    ∀ k now : Nat,
      terminalRepliesTo
        (run (run dConn c1Trace) (List.replicate k (.startScan now))) 12 = 0 := by
  have h1 : run dConn c1Trace = run (run (run dConn c1Prefix) (dummyActs 0 999)) c1Suffix := by
    rw [c1Trace, run_append, run_append]
  rw [c1_prefix_eval] at h1
  obtain ⟨evs, hcount, hrun⟩ := dummy_block 999 0 dPre rfl rfl rfl rfl
  rw [hrun] at h1
  have hgen : IDGen.advanceN 999 dPre.userGen = (⟨1, 1000, 2⟩ : IDGen) := advanceN_999
  rw [hgen] at h1
  have h2 : run dConn c1Trace = dEndC1 (evs ++ dPre.events) := by
    rw [h1]; exact c1_suffix_eval (evs ++ dPre.events)
  rw [h2]
  refine ⟨?_, rfl, ?_, ?_⟩
  · show repliesCount (c1SuffixEvs ++ (evs ++ dPre.events)) 12 = 0
    rw [repliesCount_append, repliesCount_append, hcount]
    decide
  · show Ev.write 2 "a" "new" ∈ c1SuffixEvs ++ (evs ++ dPre.events)
    simp [c1SuffixEvs]
  · intro k now
    obtain ⟨_, _, h3⟩ := scan_empty k now (dEndC1 (evs ++ dPre.events)) rfl rfl
    show repliesCount _ 12 = 0
    rw [h3]
    show repliesCount (c1SuffixEvs ++ (evs ++ dPre.events)) 12 = 0
    rw [repliesCount_append, repliesCount_append, hcount]
    decide

/-- C2 counterexample: the claim says isDone is true exactly on Disconnected
and Failed, and in particular false while Connected; but the set _DoneStates
of the source contains Connected, so isDone Connected is true. -/
theorem C2_counterexample :
    ¬ (TCPConnection.isDone .Connected = true ↔
        (ConnState.Connected = ConnState.Disconnected ∨
         ConnState.Connected = ConnState.Failed)) := by decide

/-- C2 amended: isDone is true exactly when the state is Connected,
Disconnected or Failed (the docstring of the source property reads: return
True if the last transition is finished, i.e. connected, disconnected or
failed); isConnected is true exactly on Connected. -/
theorem C2_isDone_characterization :
    ∀ s : ConnState,
      (TCPConnection.isDone s = true ↔
        (s = .Connected ∨ s = .Disconnected ∨ s = .Failed)) ∧
      (TCPConnection.isConnected s = true ↔ s = .Connected) := by
  intro s
  cases s <;> exact ⟨by decide, by decide⟩

/-- C3 counterexample: on a connection that is never made ready, the command
receives an immediate failed reply classified not-connected at executeCmd
time, the registry never holds it, and no timeout-classified reply ever
reaches its callback, contrary to the claim. -/
theorem C3_counterexample :
    repliesTo (run dNotConn c3NotConnTrace) 5000 =
      [.reply 5000 .failed .notConnected] ∧
    (run dNotConn c3NotConnTrace).cmdDict = [] ∧
    ((run dNotConn c3NotConnTrace).events.any
      (fun e => e == Ev.reply 5000 .failed .timeout)) = false := by decide

/-- C3 amended: issued while connected as the fifth command (so it draws
command id 5) with a 1 second limit, and with no hub reply ever arriving,
the command receives exactly one reply, classified timeout, at the first
scan past its limit, and the registry afterwards no longer contains id 5
(the four earlier commands, having no limit, remain registered). -/
theorem C3_timeout_scenario :
    repliesTo (run dConn c3ConnTrace) 5000 = [.reply 5000 .failed .timeout] ∧
    Ev.write 5 "act" "go" ∈ (run dConn c3ConnTrace).events ∧
    registryHas (run dConn c3ConnTrace) 5 = false ∧
    (registryHas (run dConn c3ConnTrace) 1 &&
     registryHas (run dConn c3ConnTrace) 2 &&
     registryHas (run dConn c3ConnTrace) 3 &&
     registryHas (run dConn c3ConnTrace) 4) = true := by decide

/-- C7: the claim (and the docstring of _checkRemCmdTimeouts) says the full
scan is re-armed only once the whole snapshot has been scanned with no
further failures pending; but the final statement of the source runs on
every call, so the very scan invocation that found a failure and scheduled
the resumption tick also re-armed the full-scan timer. -/
theorem C7_full_scan_rearmed_on_failing_step :
    replyEvs (run dConn c7Trace) = [.reply 70 .failed .timeout] ∧
    timerStarts (run dConn c7Trace) .checkRemCmd = 1 ∧
    timerStarts (run dConn c7Trace) .checkCmd = 1 := by decide

/-- C9: two keyVars (Temp and Pressure) of actor env share the refresh
command refresh; the refresh pass after connecting issues exactly one
refresh command (one write, id 1001) for the shared pair, and when that
command fails, exactly one warning is logged and it names both keywords. -/
theorem C9_shared_refresh_command :
    writeEvs (run d9 c9Trace) = [.write 1001 "env" "refresh"] ∧
    warnEvs (run d9 c9Trace) =
      [.logWarnRefreshFailed "env" "refresh" ["Pressure", "Temp"]] ∧
    ("Temp" ∈ sortStrings [kvTemp.keyword, kvPressure.keyword] ∧
     "Pressure" ∈ sortStrings [kvTemp.keyword, kvPressure.keyword]) := by decide

theorem refreshCmdCallback_obs (d : DState) (cv : CmdVar) :
    replyEvs (refreshCmdCallback d cv) = replyEvs d ∧
    writeEvs (refreshCmdCallback d cv) = writeEvs d ∧
    (refreshCmdCallback d cv).cmdDict = d.cmdDict := by
  unfold refreshCmdCallback
  split
  · exact ⟨rfl, rfl, rfl⟩
  · split
    · simp [replyEvs, writeEvs, addEv]
    · cases hks : (lookupKey (cv.actor, cv.cmdStr) d.refreshCmdDict).getD [] with
      | nil => simp [hks, replyEvs, writeEvs, addEv]
      | cons a tail =>
        simp only [hks]
        split
        · exact ⟨rfl, rfl, rfl⟩
        · simp [replyEvs, writeEvs, addEv]

theorem allocLoop_not_used : ∀ (f : Nat) (g : IDGen) (used : List Nat) (i : Nat) (g' : IDGen),
    allocLoop g used f = some (i, g') → used.contains i = false := by
  intro f
  induction f with
  | zero => intro g used i g' h; simp [allocLoop] at h
  | succ f ih =>
    intro g used i g' h
    rw [allocLoop] at h
    by_cases hc : used.contains g.next.1 = true
    · simp only [hc, if_true] at h
      exact ih _ _ _ _ h
    · simp only [Bool.not_eq_true] at hc
      simp only [hc, Bool.false_eq_true, if_false, Option.some.injEq, Prod.mk.injEq] at h
      exact h.1 ▸ hc

theorem eraseKey_append_fresh (i : Nat) (cv : CmdVar) (l : List (Nat × CmdVar))
    (h : (l.map Prod.fst).contains i = false) :
    eraseKey i (l ++ [(i, cv)]) = l := by
  have hmem : i ∉ l.map Prod.fst := by simpa using h
  unfold eraseKey
  rw [List.filter_append]
  have h2 : l.filter (fun e : Nat × CmdVar => e.1 ≠ i) = l := by
    refine List.filter_eq_self.mpr ?_
    intro e he
    have : e.1 ≠ i := by
      intro heq
      exact hmem (heq ▸ List.mem_map_of_mem Prod.fst he)
    simpa using this
  rw [h2]
  simp

theorem containsKey_append_self (i : Nat) (cv : CmdVar) (l : List (Nat × CmdVar)) :
    containsKey i (l ++ [(i, cv)]) = true := by
  induction l with
  | nil => simp [containsKey, lookupKey]
  | cons e rest ih =>
    by_cases h : i = e.1
    · simp [containsKey, lookupKey, h]
    · simp only [containsKey, lookupKey, List.cons_append] at ih ⊢
      rw [if_neg h]
      exact ih

theorem replyCmdVar_fresh_obs (d : DState) (cv : CmdVar) (m : MsgDict) (b : Bool)
    (hfresh : cv.cmdID = none) (hterm : m.msgType.isTerminal = true) :
    replyEvs (replyCmdVar d cv m b) = .reply cv.tag m.msgType m.kind :: replyEvs d ∧
    (replyCmdVar d cv m b).cmdDict = d.cmdDict ∧
    writeEvs (replyCmdVar d cv m b) = writeEvs d := by
  unfold replyCmdVar
  have hdone : (cv.reply m.msgType).done = true := by
    simp [CmdVar.reply, hterm]
  have hid : (cv.reply m.msgType).cmdID = none := by
    simp [CmdVar.reply, hfresh]
  simp only [hdone, hid, if_true]
  by_cases hrc : (cv.reply m.msgType).isRefreshCallback = true
  · simp only [hrc, if_true]
    obtain ⟨h1, h2, h3⟩ := refreshCmdCallback_obs
      (addEv (if b then addEv d (.logMsg m.msgType m.kind) else d)
        (.reply cv.tag m.msgType m.kind)) (cv.reply m.msgType)
    rw [h1, h2, h3]
    cases b <;> simp [replyEvs, writeEvs, addEv]
  · simp only [Bool.not_eq_true] at hrc
    simp only [hrc, Bool.false_eq_true, if_false]
    cases b <;> simp [replyEvs, writeEvs, addEv]

theorem replyCmdVar_registered_obs (d : DState) (cv : CmdVar) (m : MsgDict) (b : Bool)
    (i : Nat) (hid : cv.cmdID = some i) (hterm : m.msgType.isTerminal = true)
    (hlive : containsKey i d.cmdDict = true) :
    replyEvs (replyCmdVar d cv m b) = .reply cv.tag m.msgType m.kind :: replyEvs d ∧
    (replyCmdVar d cv m b).cmdDict = eraseKey i d.cmdDict ∧
    writeEvs (replyCmdVar d cv m b) = writeEvs d := by
  unfold replyCmdVar
  have hdone : (cv.reply m.msgType).done = true := by
    simp [CmdVar.reply, hterm]
  have hid' : (cv.reply m.msgType).cmdID = some i := by
    simp [CmdVar.reply, hid]
  simp only [hdone, hid', if_true]
  cases b
  · simp only [Bool.false_eq_true, if_false]
    by_cases hrc : (cv.reply m.msgType).isRefreshCallback = true
    · simp only [hrc, if_true]
      obtain ⟨hre, hwe, hcd⟩ := refreshCmdCallback_obs
        (addEv d (.reply cv.tag m.msgType m.kind)) (cv.reply m.msgType)
      rw [hcd]
      have hlive2 : containsKey i (addEv d (.reply cv.tag m.msgType m.kind)).cmdDict = true := by
        simpa [addEv] using hlive
      rw [if_pos hlive2]
      refine ⟨?_, by simp [addEv], ?_⟩
      · show replyEvs (refreshCmdCallback
          (addEv d (.reply cv.tag m.msgType m.kind)) (cv.reply m.msgType)) = _
        rw [hre]; simp [replyEvs, addEv]
      · show writeEvs (refreshCmdCallback
          (addEv d (.reply cv.tag m.msgType m.kind)) (cv.reply m.msgType)) = _
        rw [hwe]; simp [writeEvs, addEv]
    · simp only [Bool.not_eq_true] at hrc
      simp only [hrc, Bool.false_eq_true, if_false]
      have hlive2 : containsKey i (addEv d (.reply cv.tag m.msgType m.kind)).cmdDict = true := by
        simpa [addEv] using hlive
      rw [if_pos hlive2]
      refine ⟨by simp [replyEvs, addEv], by simp [addEv], by simp [writeEvs, addEv]⟩
  · simp only [if_true]
    by_cases hrc : (cv.reply m.msgType).isRefreshCallback = true
    · simp only [hrc, if_true]
      obtain ⟨hre, hwe, hcd⟩ := refreshCmdCallback_obs
        (addEv (addEv d (.logMsg m.msgType m.kind)) (.reply cv.tag m.msgType m.kind))
        (cv.reply m.msgType)
      rw [hcd]
      have hlive2 : containsKey i (addEv (addEv d (.logMsg m.msgType m.kind))
          (.reply cv.tag m.msgType m.kind)).cmdDict = true := by
        simpa [addEv] using hlive
      rw [if_pos hlive2]
      refine ⟨?_, by simp [addEv], ?_⟩
      · show replyEvs (refreshCmdCallback
          (addEv (addEv d (.logMsg m.msgType m.kind)) (.reply cv.tag m.msgType m.kind))
          (cv.reply m.msgType)) = _
        rw [hre]; simp [replyEvs, addEv]
      · show writeEvs (refreshCmdCallback
          (addEv (addEv d (.logMsg m.msgType m.kind)) (.reply cv.tag m.msgType m.kind))
          (cv.reply m.msgType)) = _
        rw [hwe]; simp [writeEvs, addEv]
    · simp only [Bool.not_eq_true] at hrc
      simp only [hrc, Bool.false_eq_true, if_false]
      have hlive2 : containsKey i (addEv (addEv d (.logMsg m.msgType m.kind))
          (.reply cv.tag m.msgType m.kind)).cmdDict = true := by
        simpa [addEv] using hlive
      rw [if_pos hlive2]
      refine ⟨by simp [replyEvs, addEv], by simp [addEv], by simp [writeEvs, addEv]⟩

theorem findTimeout_eq (d : DState) (now : Nat) : ∀ l : List CmdVar,
    findTimeout d now l =
      (firstFailing d now l).map (fun p => (failedCmd d p.1, failMsg d p.1, p.2)) := by
  intro l
  induction l with
  | nil => rfl
  | cons cv rest ih =>
    by_cases hl : cmdLive d cv = true
    · by_cases hconn : d.isConnected = true
      · by_cases hexp : expired now cv = true
        · simp [findTimeout, firstFailing, qualifies, hl, hconn, hexp, failedCmd, failMsg]
        · simp only [Bool.not_eq_true] at hexp
          simp [findTimeout, firstFailing, qualifies, hl, hconn, hexp, ih]
      · simp only [Bool.not_eq_true] at hconn
        simp [findTimeout, firstFailing, qualifies, hl, hconn, failedCmd, failMsg]
    · simp only [Bool.not_eq_true] at hl
      simp [findTimeout, firstFailing, qualifies, hl, ih]

theorem firstFailing_split (d : DState) (now : Nat) : ∀ (l : List CmdVar) (cv : CmdVar)
    (rest : List CmdVar), firstFailing d now l = some (cv, rest) →
    qualifies d now cv = true ∧
    ∃ pre, l = pre ++ cv :: rest ∧ ∀ cv' ∈ pre, qualifies d now cv' = false := by
  intro l
  induction l with
  | nil => intro cv rest h; simp [firstFailing] at h
  | cons a tail ih =>
    intro cv rest h
    by_cases hq : qualifies d now a = true
    · rw [firstFailing, if_pos hq] at h
      simp only [Option.some.injEq, Prod.mk.injEq] at h
      exact ⟨h.1 ▸ hq, [], by simp [h.1, h.2], by simp⟩
    · rw [firstFailing, if_neg hq] at h
      obtain ⟨hqcv, pre, hpre, hall⟩ := ih cv rest h
      refine ⟨hqcv, a :: pre, by simp [hpre], ?_⟩
      intro cv' hcv'
      rcases List.mem_cons.mp hcv' with heq | hmem
      · subst heq; simpa using hq
      · exact hall cv' hmem

theorem cmdLive_elim (d : DState) (cv : CmdVar) (h : cmdLive d cv = true) :
    ∃ i, cv.cmdID = some i ∧ containsKey i d.cmdDict = true := by
  unfold cmdLive at h
  cases hid : cv.cmdID with
  | none => rw [hid] at h; simp at h
  | some i => rw [hid] at h; exact ⟨i, rfl, h⟩

theorem refreshCmdCallback_remTimer (d : DState) (cv : CmdVar) :
    timerStarts (refreshCmdCallback d cv) .checkRemCmd = timerStarts d .checkRemCmd := by
  unfold refreshCmdCallback
  split
  · rfl
  · split
    · simp [timerStarts, addEv]
    · cases hks : (lookupKey (cv.actor, cv.cmdStr) d.refreshCmdDict).getD [] with
      | nil => simp [hks, timerStarts, addEv]
      | cons a tail =>
        simp only [hks]
        split
        · rfl
        · simp [timerStarts, addEv]

theorem replyCmdVar_remTimer (d : DState) (cv : CmdVar) (m : MsgDict) (b : Bool) :
    timerStarts (replyCmdVar d cv m b) .checkRemCmd = timerStarts d .checkRemCmd := by
  unfold replyCmdVar
  have hbug : ∀ (dd : DState) (i : Nat),
      timerStarts (addEv dd (.bugDoubleDelete i)) .checkRemCmd =
        timerStarts dd .checkRemCmd := by
    intro dd i; simp [timerStarts, addEv]
  set D2 : DState :=
    (if (cv.reply m.msgType).isRefreshCallback = true then
      refreshCmdCallback (addEv (if b = true then addEv d (.logMsg m.msgType m.kind) else d)
        (.reply cv.tag m.msgType m.kind)) (cv.reply m.msgType)
    else addEv (if b = true then addEv d (.logMsg m.msgType m.kind) else d)
      (.reply cv.tag m.msgType m.kind)) with hD2def
  have hD2 : timerStarts D2 .checkRemCmd = timerStarts d .checkRemCmd := by
    rw [hD2def]
    have hD1 : timerStarts (addEv (if b = true then addEv d (.logMsg m.msgType m.kind) else d)
        (.reply cv.tag m.msgType m.kind)) .checkRemCmd = timerStarts d .checkRemCmd := by
      cases b <;> simp [timerStarts, addEv]
    split
    · rw [refreshCmdCallback_remTimer]; exact hD1
    · exact hD1
  by_cases hdone : (cv.reply m.msgType).done = true
  · simp only [hdone, if_true]
    cases hcid : (cv.reply m.msgType).cmdID with
    | none => exact hD2
    | some i =>
      by_cases hck : containsKey i D2.cmdDict = true
      · simp only [hck, if_true]
        exact hD2
      · simp only [Bool.not_eq_true] at hck
        simp only [hck, Bool.false_eq_true, if_false]
        rw [hbug]
        exact hD2
  · simp only [Bool.not_eq_true] at hdone
    simp only [hdone, Bool.false_eq_true, if_false]
    exact hD2

theorem failedCmd_fields (d : DState) (cv : CmdVar) :
    (failedCmd d cv).tag = cv.tag ∧ (failedCmd d cv).cmdID = cv.cmdID := by
  unfold failedCmd
  split <;> exact ⟨rfl, rfl⟩

theorem failMsg_fields (d : DState) (cv : CmdVar) :
    (failMsg d cv).msgType = .failed ∧ (failMsg d cv).kind = failKind d ∧
    (failMsg d cv).msgType.isTerminal = true := by
  unfold failMsg failKind
  split <;> exact ⟨rfl, rfl, rfl⟩

/-- C6: each invocation of the timeout-scan step fails at most one
outstanding command, namely the first of the remaining snapshot that
qualifies (its id still registered, and the connection down or its time
limit passed); that command receives its failure reply immediately, in the
same call, and is removed from the registry at once; the scan of the
commands after it is not continued in this call but handed to a freshly
started resumption timer; with no qualifying command, the snapshot is
exhausted, nothing is replied or removed, and no resumption timer is
started. -/
theorem C6_scan_one_failure_per_step (d : DState) (now : Nat) :
    (replyEvs (checkRemCmdTimeouts d now)).length ≤ (replyEvs d).length + 1 ∧
    (firstFailing d now d.scanRem = none →
      (checkRemCmdTimeouts d now).cmdDict = d.cmdDict ∧
      replyEvs (checkRemCmdTimeouts d now) = replyEvs d ∧
      (checkRemCmdTimeouts d now).scanRem = [] ∧
      timerStarts (checkRemCmdTimeouts d now) .checkRemCmd = timerStarts d .checkRemCmd) ∧
    (∀ cv rest, firstFailing d now d.scanRem = some (cv, rest) →
      qualifies d now cv = true ∧
      (∃ pre, d.scanRem = pre ++ cv :: rest ∧ ∀ cv' ∈ pre, qualifies d now cv' = false) ∧
      replyEvs (checkRemCmdTimeouts d now) =
        .reply cv.tag .failed (failKind d) :: replyEvs d ∧
      (checkRemCmdTimeouts d now).cmdDict = eraseKey (cv.cmdID.getD 0) d.cmdDict ∧
      (checkRemCmdTimeouts d now).scanRem = rest ∧
      timerStarts (checkRemCmdTimeouts d now) .checkRemCmd =
        timerStarts d .checkRemCmd + 1) := by
  have hnone : firstFailing d now d.scanRem = none →
      (checkRemCmdTimeouts d now).cmdDict = d.cmdDict ∧
      replyEvs (checkRemCmdTimeouts d now) = replyEvs d ∧
      (checkRemCmdTimeouts d now).scanRem = [] ∧
      timerStarts (checkRemCmdTimeouts d now) .checkRemCmd = timerStarts d .checkRemCmd := by
    intro h
    unfold checkRemCmdTimeouts
    rw [findTimeout_eq, h]
    simp [replyEvs, addEv, timerStarts]
  have hsome : ∀ cv rest, firstFailing d now d.scanRem = some (cv, rest) →
      qualifies d now cv = true ∧
      (∃ pre, d.scanRem = pre ++ cv :: rest ∧ ∀ cv' ∈ pre, qualifies d now cv' = false) ∧
      replyEvs (checkRemCmdTimeouts d now) =
        .reply cv.tag .failed (failKind d) :: replyEvs d ∧
      (checkRemCmdTimeouts d now).cmdDict = eraseKey (cv.cmdID.getD 0) d.cmdDict ∧
      (checkRemCmdTimeouts d now).scanRem = rest ∧
      timerStarts (checkRemCmdTimeouts d now) .checkRemCmd =
        timerStarts d .checkRemCmd + 1 := by
    intro cv rest h
    obtain ⟨hq, hsplit⟩ := firstFailing_split d now d.scanRem cv rest h
    have hlive : cmdLive d cv = true := by
      unfold qualifies at hq
      exact (Bool.and_eq_true _ _ |>.mp hq).1
    obtain ⟨i, hid, hck⟩ := cmdLive_elim d cv hlive
    obtain ⟨hft, hfk, hterm⟩ := failMsg_fields d cv
    obtain ⟨htag, hcid⟩ := failedCmd_fields d cv
    have hid' : (failedCmd d cv).cmdID = some i := hcid.trans hid
    obtain ⟨h1, h2, h3⟩ := replyCmdVar_registered_obs d (failedCmd d cv) (failMsg d cv)
      true i hid' hterm hck
    unfold checkRemCmdTimeouts
    rw [findTimeout_eq, h]
    refine ⟨hq, hsplit, ?_, ?_, rfl, ?_⟩
    · show replyEvs (addEv (addEv _ (.timerStart .checkRemCmd)) (.timerStart .checkCmd)) = _
      have : replyEvs (addEv (addEv
          ({ replyCmdVar d (failedCmd d cv) (failMsg d cv) true with scanRem := rest })
          (.timerStart .checkRemCmd)) (.timerStart .checkCmd)) =
          replyEvs (replyCmdVar d (failedCmd d cv) (failMsg d cv) true) := by
        simp [replyEvs, addEv]
      rw [this, h1, htag, hft, hfk]
    · show (addEv (addEv _ (.timerStart .checkRemCmd)) (.timerStart .checkCmd)).cmdDict = _
      have : (addEv (addEv
          ({ replyCmdVar d (failedCmd d cv) (failMsg d cv) true with scanRem := rest })
          (.timerStart .checkRemCmd)) (.timerStart .checkCmd)).cmdDict =
          (replyCmdVar d (failedCmd d cv) (failMsg d cv) true).cmdDict := by
        simp [addEv]
      rw [this, h2, hid]
      rfl
    · show timerStarts (addEv (addEv
          ({ replyCmdVar d (failedCmd d cv) (failMsg d cv) true with scanRem := rest })
          (.timerStart .checkRemCmd)) (.timerStart .checkCmd)) .checkRemCmd = _
      have hstep : timerStarts (addEv (addEv
          ({ replyCmdVar d (failedCmd d cv) (failMsg d cv) true with scanRem := rest })
          (.timerStart .checkRemCmd)) (.timerStart .checkCmd)) .checkRemCmd =
          timerStarts (replyCmdVar d (failedCmd d cv) (failMsg d cv) true) .checkRemCmd + 1 := by
        simp [timerStarts, addEv]
      rw [hstep, replyCmdVar_remTimer]
  refine ⟨?_, hnone, hsome⟩
  cases hff : firstFailing d now d.scanRem with
  | none => rw [(hnone hff).2.1]; omega
  | some p =>
    rw [(hsome p.1 p.2 hff).2.2.1]
    simp

/-- C6 witness: a disconnected dispatcher with one registered command whose
stale snapshot entry qualifies; the scan step fails exactly that command,
removes it, and leaves an empty resumption iterator. -/
theorem C6_scan_one_failure_per_step_witness :
    (checkRemCmdTimeouts dC6 5).scanRem = [] ∧
    (checkRemCmdTimeouts dC6 5).cmdDict = [] ∧
    replyEvs (checkRemCmdTimeouts dC6 5) = [.reply 11 .failed .abortedDisconnected] := by
  have h := (C6_scan_one_failure_per_step dC6 5).2.2 cvAreg [] (by decide)
  exact ⟨h.2.2.2.2.1, h.2.2.2.1.trans (by decide), h.2.2.1.trans (by decide)⟩

theorem genOK_advance (g : IDGen) (lo hi : Nat) (hg : genOK g lo hi) :
    genOK g.advance lo hi := by
  obtain ⟨mn, mx, cu⟩ := g
  obtain ⟨h1, h2, h3, h4⟩ := hg
  simp only at h1 h2 h3 h4
  subst h1 h2
  refine ⟨rfl, rfl, ?_, ?_⟩ <;>
    simp only [IDGen.advance, IDGen.next] <;> split <;> omega

theorem allocLoop_spec : ∀ (f : Nat) (g : IDGen) (used : List Nat) (i : Nat) (g' : IDGen)
    (lo hi : Nat), genOK g lo hi → allocLoop g used f = some (i, g') →
    used.contains i = false ∧ lo ≤ i ∧ i ≤ hi ∧ genOK g' lo hi := by
  intro f
  induction f with
  | zero => intro g used i g' lo hi _ h; simp [allocLoop] at h
  | succ f ih =>
    intro g used i g' lo hi hg h
    rw [allocLoop] at h
    have hadv : genOK g.advance lo hi := genOK_advance g lo hi hg
    by_cases hc : used.contains g.next.1 = true
    · simp only [hc, if_true] at h
      exact ih _ _ _ _ _ _ hadv h
    · simp only [Bool.not_eq_true] at hc
      simp only [hc, Bool.false_eq_true, if_false, Option.some.injEq, Prod.mk.injEq] at h
      obtain ⟨h1, h2⟩ := h
      subst h1
      exact ⟨hc, hg.2.2.1, hg.2.2.2, h2 ▸ hadv⟩

theorem allocLoop_skip (f : Nat) (g : IDGen) (used : List Nat)
    (h1 : used.contains g.curr = true) (h2 : used.contains g.advance.curr = false) :
    allocLoop g used (f + 2) = some (g.advance.curr, g.advance.advance) := by
  obtain ⟨mn, mx, cu⟩ := g
  simp only [IDGen.advance, IDGen.next] at h1 h2 ⊢
  rw [allocLoop]
  simp only [IDGen.next, h1, if_true]
  rw [allocLoop]
  simp only [IDGen.next, h2, Bool.false_eq_true, if_false]

theorem dictWF_erase (l : List (Nat × CmdVar)) (j : Nat)
    (hn : (l.map Prod.fst).Nodup) (hb : ∀ e ∈ l, entryOK e) :
    ((eraseKey j l).map Prod.fst).Nodup ∧ (∀ e ∈ eraseKey j l, entryOK e) := by
  have hsub : List.Sublist (eraseKey j l) l := List.filter_sublist l
  exact ⟨hn.sublist (hsub.map Prod.fst), fun e he => hb e (hsub.subset he)⟩

theorem refreshCmdCallback_gens (d : DState) (cv : CmdVar) :
    (refreshCmdCallback d cv).userGen = d.userGen ∧
    (refreshCmdCallback d cv).refreshGen = d.refreshGen := by
  unfold refreshCmdCallback
  split
  · exact ⟨rfl, rfl⟩
  · split
    · exact ⟨rfl, rfl⟩
    · cases hks : (lookupKey (cv.actor, cv.cmdStr) d.refreshCmdDict).getD [] with
      | nil =>
        simp only [hks]
        exact ⟨rfl, rfl⟩
      | cons a tail =>
        simp only [hks]
        split
        · exact ⟨rfl, rfl⟩
        · exact ⟨rfl, rfl⟩

theorem replyCmdVar_struct (d : DState) (cv : CmdVar) (m : MsgDict) (b : Bool) :
    (replyCmdVar d cv m b).userGen = d.userGen ∧
    (replyCmdVar d cv m b).refreshGen = d.refreshGen ∧
    ((replyCmdVar d cv m b).cmdDict = d.cmdDict ∨
      ∃ j, (replyCmdVar d cv m b).cmdDict = eraseKey j d.cmdDict) := by
  unfold replyCmdVar
  set D2 : DState :=
    (if (cv.reply m.msgType).isRefreshCallback = true then
      refreshCmdCallback (addEv (if b = true then addEv d (.logMsg m.msgType m.kind) else d)
        (.reply cv.tag m.msgType m.kind)) (cv.reply m.msgType)
    else addEv (if b = true then addEv d (.logMsg m.msgType m.kind) else d)
      (.reply cv.tag m.msgType m.kind)) with hD2def
  have hstruct : D2.userGen = d.userGen ∧ D2.refreshGen = d.refreshGen ∧
      D2.cmdDict = d.cmdDict := by
    rw [hD2def]
    split
    · obtain ⟨hg1, hg2⟩ := refreshCmdCallback_gens
        (addEv (if b = true then addEv d (.logMsg m.msgType m.kind) else d)
          (.reply cv.tag m.msgType m.kind)) (cv.reply m.msgType)
      obtain ⟨_, _, hdict⟩ := refreshCmdCallback_obs
        (addEv (if b = true then addEv d (.logMsg m.msgType m.kind) else d)
          (.reply cv.tag m.msgType m.kind)) (cv.reply m.msgType)
      exact ⟨hg1.trans (by cases b <;> rfl), hg2.trans (by cases b <;> rfl),
        hdict.trans (by cases b <;> rfl)⟩
    · exact ⟨by cases b <;> rfl, by cases b <;> rfl, by cases b <;> rfl⟩
  by_cases hdone : (cv.reply m.msgType).done = true
  · simp only [hdone, if_true]
    cases hcid : (cv.reply m.msgType).cmdID with
    | none => exact ⟨hstruct.1, hstruct.2.1, Or.inl hstruct.2.2⟩
    | some i =>
      by_cases hck : containsKey i D2.cmdDict = true
      · simp only [hck, if_true]
        refine ⟨hstruct.1, hstruct.2.1, Or.inr ⟨i, ?_⟩⟩
        show eraseKey i D2.cmdDict = eraseKey i d.cmdDict
        rw [hstruct.2.2]
      · simp only [Bool.not_eq_true] at hck
        simp only [hck, Bool.false_eq_true, if_false]
        exact ⟨hstruct.1, hstruct.2.1, Or.inl hstruct.2.2⟩
  · simp only [Bool.not_eq_true] at hdone
    simp only [hdone, Bool.false_eq_true, if_false]
    exact ⟨hstruct.1, hstruct.2.1, Or.inl hstruct.2.2⟩

theorem replyCmdVar_WF (d : DState) (cv : CmdVar) (m : MsgDict) (b : Bool)
    (h : WF d) : WF (replyCmdVar d cv m b) := by
  obtain ⟨hu, hr, hdict⟩ := replyCmdVar_struct d cv m b
  obtain ⟨hn, hb, hgu, hgr⟩ := h
  refine ⟨?_, ?_, ?_, ?_⟩
  · cases hdict with
    | inl he => rw [he]; exact hn
    | inr he => obtain ⟨j, hj⟩ := he; rw [hj]; exact (dictWF_erase _ j hn hb).1
  · cases hdict with
    | inl he => rw [he]; exact hb
    | inr he => obtain ⟨j, hj⟩ := he; rw [hj]; exact (dictWF_erase _ j hn hb).2
  · rw [hu]; exact hgu
  · rw [hr]; exact hgr

theorem contains_false_not_mem {a : Nat} {l : List Nat} (h : l.contains a = false) :
    a ∉ l := by simpa using h

theorem dict_insert_WF (d : DState) (cv : CmdVar) (i now : Nat)
    (h : WF d) (hnotin : i ∉ d.cmdDict.map Prod.fst)
    (hok : entryOK (i, cv.setStartInfo i now)) :
    ((d.cmdDict ++ [(i, cv.setStartInfo i now)]).map Prod.fst).Nodup ∧
    (∀ e ∈ d.cmdDict ++ [(i, cv.setStartInfo i now)], entryOK e) := by
  constructor
  · rw [List.map_append, List.nodup_append]
    refine ⟨h.1, List.nodup_singleton i, ?_⟩
    intro a ha hb
    simp only [List.map_cons, List.map_nil, List.mem_singleton] at hb
    exact hnotin (hb ▸ ha)
  · intro e he
    rcases List.mem_append.mp he with hm | hm
    · exact h.2.1 e hm
    · simp only [List.mem_singleton] at hm
      subst hm
      exact hok

theorem executeCmd_WF (d : DState) (cv : CmdVar) (now : Nat) (wf : Bool)
    (h : WF d) : WF (executeCmd d cv now wf) := by
  unfold executeCmd
  by_cases hc : d.isConnected = true
  · simp only [hc, Bool.not_true, Bool.false_eq_true, if_false]
    cases halloc : allocCmdID d cv.isRefresh with
    | none => exact h
    | some p =>
      obtain ⟨i, g'⟩ := p
      cases hr : cv.isRefresh with
      | true =>
        rw [hr] at halloc
        have halloc' : allocLoop d.refreshGen (d.cmdDict.map Prod.fst)
            (d.refreshGen.maxVal + 1 - d.refreshGen.minVal) = some (i, g') := by
          unfold allocCmdID at halloc
          simpa using halloc
        obtain ⟨hfree, hlo, hhi, hg'⟩ :=
          allocLoop_spec _ _ _ _ _ 1001 2000 h.2.2.2 halloc'
        have hok : entryOK (i, cv.setStartInfo i now) :=
          Or.inl ⟨by simp [CmdVar.setStartInfo, hr], hlo, hhi⟩
        obtain ⟨hn2, hb2⟩ := dict_insert_WF d cv i now h (contains_false_not_mem hfree) hok
        simp only [hr, if_true]
        have hWF1 : WF { d with
            refreshGen := g', cmdDict := d.cmdDict ++ [(i, cv.setStartInfo i now)] } :=
          ⟨hn2, hb2, h.2.2.1, hg'⟩
        cases wf with
        | true => exact replyCmdVar_WF _ _ _ _ hWF1
        | false => exact hWF1
      | false =>
        rw [hr] at halloc
        have halloc' : allocLoop d.userGen (d.cmdDict.map Prod.fst)
            (d.userGen.maxVal + 1 - d.userGen.minVal) = some (i, g') := by
          unfold allocCmdID at halloc
          simpa using halloc
        obtain ⟨hfree, hlo, hhi, hg'⟩ :=
          allocLoop_spec _ _ _ _ _ 1 1000 h.2.2.1 halloc'
        have hok : entryOK (i, cv.setStartInfo i now) :=
          Or.inr ⟨by simp [CmdVar.setStartInfo, hr], hlo, hhi⟩
        obtain ⟨hn2, hb2⟩ := dict_insert_WF d cv i now h (contains_false_not_mem hfree) hok
        simp only [hr, Bool.false_eq_true, if_false]
        have hWF1 : WF { d with
            userGen := g', cmdDict := d.cmdDict ++ [(i, cv.setStartInfo i now)] } :=
          ⟨hn2, hb2, hg', h.2.2.2⟩
        cases wf with
        | true => exact replyCmdVar_WF _ _ _ _ hWF1
        | false => exact hWF1
  · simp only [Bool.not_eq_true] at hc
    simp only [hc, Bool.not_false, if_true]
    exact replyCmdVar_WF _ _ _ _ h

theorem dispatch_WF (d : DState) (m : MsgDict) (h : WF d) : WF (dispatch d m) := by
  unfold dispatch
  repeat' first
  | exact h
  | exact replyCmdVar_WF _ _ _ _ h
  | split
  | dsimp only

theorem checkRemCmdTimeouts_WF (d : DState) (now : Nat) (h : WF d) :
    WF (checkRemCmdTimeouts d now) := by
  unfold checkRemCmdTimeouts
  repeat' first
  | exact h
  | exact replyCmdVar_WF _ _ _ _ h
  | split

theorem checkCmdTimeouts_WF (d : DState) (now : Nat) (h : WF d) :
    WF (checkCmdTimeouts d now) := by
  unfold checkCmdTimeouts
  exact checkRemCmdTimeouts_WF _ _ h

theorem sendNextRefreshCmd_WF (d : DState) (useExisting : Bool) (now : Nat) (wf : Bool)
    (h : WF d) : WF (sendNextRefreshCmd d useExisting now wf) := by
  unfold sendNextRefreshCmd
  repeat' first
  | exact h
  | exact executeCmd_WF _ _ _ _ h
  | split
  | dsimp only

theorem refreshAllVar_WF (d : DState) (now : Nat) (wf : Bool) (h : WF d) :
    WF (refreshAllVar d now wf) := by
  unfold refreshAllVar
  exact sendNextRefreshCmd_WF _ _ _ _ h

theorem connStateCallback_WF (d : DState) (b : Bool) (h : WF d) :
    WF (connStateCallback d b) := by
  unfold connStateCallback
  dsimp only
  split
  · exact h
  · exact h

theorem step_WF (d : DState) (a : Action) (h : WF d) : WF (step d a) := by
  cases a with
  | execute cv now wfl => exact executeCmd_WF _ _ _ _ h
  | deliver m => exact dispatch_WF _ _ h
  | startScan now => exact checkCmdTimeouts_WF _ _ h
  | scanTick now => exact checkRemCmdTimeouts_WF _ _ h
  | connState b => exact connStateCallback_WF _ _ h
  | refreshAllTick now wfl => exact refreshAllVar_WF _ _ _ h
  | refreshNextTick now wfl => exact sendNextRefreshCmd_WF _ _ _ _ h

theorem run_WF (acts : List Action) : ∀ d : DState, WF d → WF (run d acts) := by
  induction acts with
  | nil => intro d h; exact h
  | cons a rest ih => intro d h; exact ih (step d a) (step_WF d a h)

/-- C5: at every moment the ids of outstanding commands are pairwise
distinct, user commands only ever hold ids 1 through 1000 and refresh
commands only ids 1001 through 2000 (the two wrapping ranges are disjoint):
this well-formedness is an invariant of every event-loop step and hence of
every run; the allocation loop of executeCmd only ever returns an id of the
range of its generator that is not currently in use, and when the next
candidate id is in use while the following one is free, it skips to the
following id of the same range rather than failing. -/
theorem C5_command_id_invariants :
    (∀ (d : DState) (a : Action), WF d → WF (step d a)) ∧
    (∀ (d : DState) (acts : List Action), WF d → WF (run d acts)) ∧
    (∀ (f : Nat) (g : IDGen) (used : List Nat) (i : Nat) (g' : IDGen) (lo hi : Nat),
      genOK g lo hi → allocLoop g used f = some (i, g') →
      used.contains i = false ∧ lo ≤ i ∧ i ≤ hi ∧ genOK g' lo hi) ∧
    (∀ (f : Nat) (g : IDGen) (used : List Nat),
      used.contains g.curr = true → used.contains g.advance.curr = false →
      allocLoop g used (f + 2) = some (g.advance.curr, g.advance.advance)) :=
  ⟨fun d a h => step_WF d a h,
   fun d acts h => run_WF acts d h,
   fun f g used i g' lo hi h1 h2 => allocLoop_spec f g used i g' lo hi h1 h2,
   fun f g used h1 h2 => allocLoop_skip f g used h1 h2⟩

/-- C5 witness: the invariant holds of a connected dispatcher and is kept by
issuing a command, and the allocation loop, finding id 7 in use, returns the
following id 8 of the user range. -/
theorem C5_command_id_invariants_witness :
    WF (step dConn (.execute cv5spec 0 false)) ∧
    allocLoop ⟨1, 1000, 7⟩ [7] 1000 = some (8, ⟨1, 1000, 9⟩) := by
  constructor
  · exact C5_command_id_invariants.1 dConn (.execute cv5spec 0 false) (by decide)
  · have h := C5_command_id_invariants.2.2.2 998 ⟨1, 1000, 7⟩ [7] (by decide) (by decide)
    simpa [IDGen.advance, IDGen.next] using h

/-- C8: if executeCmd is called while the connection is not connected, the
command callback immediately receives a synthesized failed reply classified
not-connected, the command registry is untouched (the command is never
entered), and nothing is written to the connection; if instead the command
is registered and the connection write raises, a write-failed reply is
synthesized and the command is retired immediately (the registry is exactly
as before the call); on a successful write the serialized command
(id actor commandText) is written and the command stays registered. -/
theorem C8_executeCmd (d : DState) (cv : CmdVar) (now : Nat) (wf : Bool)
    (hfresh : cv.cmdID = none) :
    (d.isConnected = false →
      replyEvs (executeCmd d cv now wf) = .reply cv.tag .failed .notConnected :: replyEvs d ∧
      (executeCmd d cv now wf).cmdDict = d.cmdDict ∧
      writeEvs (executeCmd d cv now wf) = writeEvs d) ∧
    (d.isConnected = true →
      ∀ i g', allocCmdID d cv.isRefresh = some (i, g') →
        (wf = true →
          replyEvs (executeCmd d cv now wf) = .reply cv.tag .failed .writeFailed :: replyEvs d ∧
          (executeCmd d cv now wf).cmdDict = d.cmdDict ∧
          writeEvs (executeCmd d cv now wf) = writeEvs d) ∧
        (wf = false →
          writeEvs (executeCmd d cv now wf) = .write i cv.actor cv.cmdStr :: writeEvs d ∧
          (executeCmd d cv now wf).cmdDict = d.cmdDict ++ [(i, cv.setStartInfo i now)] ∧
          replyEvs (executeCmd d cv now wf) = replyEvs d)) := by
  constructor
  · intro hc
    unfold executeCmd
    simp only [hc, Bool.not_false, if_true]
    obtain ⟨h1, h2, h3⟩ := replyCmdVar_fresh_obs d cv (makeMsgDict 0 .notConnected) true hfresh rfl
    exact ⟨h1, h2, h3⟩
  · intro hc i g' halloc
    have hnotused : ((d.cmdDict.map Prod.fst).contains i) = false := by
      unfold allocCmdID at halloc
      exact allocLoop_not_used _ _ _ _ _ halloc
    have hid : (cv.setStartInfo i now).cmdID = some i := by simp [CmdVar.setStartInfo]
    constructor
    · intro hwf
      subst hwf
      unfold executeCmd
      simp only [hc, Bool.not_true, Bool.false_eq_true, if_false, halloc]
      by_cases hr : cv.isRefresh = true
      · simp only [hr, if_true]
        obtain ⟨h1, h2, h3⟩ := replyCmdVar_registered_obs
          { d with
            isConnected := true, refreshGen := g',
            cmdDict := d.cmdDict ++ [(i, cv.setStartInfo i now)] }
          (cv.setStartInfo i now) (makeMsgDict i .writeFailed) true i hid rfl
          (by simpa using containsKey_append_self i (cv.setStartInfo i now) d.cmdDict)
        refine ⟨h1, ?_, h3⟩
        exact h2.trans
          (by simpa using eraseKey_append_fresh i (cv.setStartInfo i now) d.cmdDict hnotused)
      · simp only [Bool.not_eq_true] at hr
        simp only [hr, Bool.false_eq_true, if_false]
        obtain ⟨h1, h2, h3⟩ := replyCmdVar_registered_obs
          { d with
            isConnected := true, userGen := g',
            cmdDict := d.cmdDict ++ [(i, cv.setStartInfo i now)] }
          (cv.setStartInfo i now) (makeMsgDict i .writeFailed) true i hid rfl
          (by simpa using containsKey_append_self i (cv.setStartInfo i now) d.cmdDict)
        refine ⟨h1, ?_, h3⟩
        exact h2.trans
          (by simpa using eraseKey_append_fresh i (cv.setStartInfo i now) d.cmdDict hnotused)
    · intro hwf
      subst hwf
      unfold executeCmd
      simp only [hc, Bool.not_true, Bool.false_eq_true, if_false, halloc]
      by_cases hr : cv.isRefresh = true
      · simp only [hr, if_true]
        refine ⟨?_, by simp [addEv, CmdVar.setStartInfo], ?_⟩
        · simp [writeEvs, addEv, CmdVar.setStartInfo]
        · simp [replyEvs, addEv]
      · simp only [Bool.not_eq_true] at hr
        simp only [hr, Bool.false_eq_true, if_false]
        refine ⟨?_, by simp [addEv, CmdVar.setStartInfo], ?_⟩
        · simp [writeEvs, addEv, CmdVar.setStartInfo]
        · simp [replyEvs, addEv]

/-- C8 witness: concrete instances of both branches. -/
theorem C8_executeCmd_witness :
    ((executeCmd dNotConn cv5spec 0 false).cmdDict = dNotConn.cmdDict ∧
     writeEvs (executeCmd dNotConn cv5spec 0 false) = writeEvs dNotConn) ∧
    (executeCmd dConn cv5spec 0 true).cmdDict = dConn.cmdDict := by
  have h1 := (C8_executeCmd dNotConn cv5spec 0 false rfl).1 rfl
  have h2 := ((C8_executeCmd dConn cv5spec 0 true rfl).2 rfl 1
    ⟨1, 1000, 2⟩ (by decide)).1 rfl
  exact ⟨⟨h1.2.1, h1.2.2⟩, h2.2.1⟩

end KeyDispatcher

namespace TCPConnection

theorem runStateCallbacks_eq (l : List StateCallback) :
    runStateCallbacks l = (invokedUpToFirstRaiser l, firstRaiser l) := by
  induction l with
  | nil => rfl
  | cons cb rest ih =>
    by_cases h : cb.raises = true
    · simp [runStateCallbacks, invokedUpToFirstRaiser, firstRaiser, h]
    · simp only [Bool.not_eq_true] at h
      simp [runStateCallbacks, invokedUpToFirstRaiser, firstRaiser, h, ih]

theorem invokedUpToFirstRaiser_all (l : List StateCallback)
    (h : ∀ cb ∈ l, cb.raises = false) :
    invokedUpToFirstRaiser l = l.map StateCallback.id := by
  induction l with
  | nil => rfl
  | cons cb rest ih =>
    have hcb := h cb (by simp)
    simp [invokedUpToFirstRaiser, hcb, ih (fun c hc => h c (by simp [hc]))]

theorem setState_cases (c : Conn) (ns : ConnState) (r : Option String) :
    setState c ns r =
      if (c.state, c.reason) ≠ (ns, r.getD c.reason) then
        ⟨⟨ns, r.getD c.reason, c.stateCallbacks⟩,
         invokedUpToFirstRaiser c.stateCallbacks, firstRaiser c.stateCallbacks⟩
      else ⟨⟨ns, r.getD c.reason, c.stateCallbacks⟩, [], none⟩ := by
  cases r <;> simp only [setState, Option.getD, runStateCallbacks_eq]

/-- C4 counterexample: a connection in state Disconnected with two registered
state callbacks, the first of which raises; _setState on the transition to
Connecting invokes only the first callback, the exception propagates, and
the second registered callback never runs, contrary to the claim that one
callback raising does not prevent the remaining callbacks from running. -/
theorem C4_counterexample :
    (setState ⟨.Disconnected, "", [⟨0, true⟩, ⟨1, false⟩]⟩ .Connecting none).invoked = [0] ∧
    ¬ (1 ∈ (setState ⟨.Disconnected, "", [⟨0, true⟩, ⟨1, false⟩]⟩ .Connecting none).invoked) ∧
    (setState ⟨.Disconnected, "", [⟨0, true⟩, ⟨1, false⟩]⟩ .Connecting none).raised = some 0 := by
  decide

/-- C4 amended: TCPConnection._setState stores the new state and reason
before running any callback, so an exception in a callback corrupts neither;
on a change it invokes the registered callbacks in registration order, but
only up to and including the first one that raises - the exception
propagates and the remaining callbacks do not run (when no callback raises,
every registered callback runs).  Base._setState of BaseSocket, which has a
single callback slot, does catch the exception: it always returns normally
when the object was not already done, with the state and reason stored. -/
theorem C4_setState_behavior (c : Conn) (ns : ConnState) (r : Option String) :
    (setState c ns r).conn.state = ns ∧
    (setState c ns r).conn.reason = r.getD c.reason ∧
    ((c.state, c.reason) ≠ (ns, r.getD c.reason) →
      (setState c ns r).invoked = invokedUpToFirstRaiser c.stateCallbacks ∧
      (setState c ns r).raised = firstRaiser c.stateCallbacks) ∧
    ((∀ cb ∈ c.stateCallbacks, cb.raises = false) →
      invokedUpToFirstRaiser c.stateCallbacks = c.stateCallbacks.map StateCallback.id) ∧
    (∀ (b : BaseSocket.Base) (ns' : Int) (r' : Option String),
      BaseSocket.isDone b.state = false →
      ∃ res : BaseSocket.BaseSetStateResult,
        BaseSocket.setState b ns' r' = .ok res ∧
        res.base.state = ns' ∧ res.base.reason = r'.getD b.reason) := by
  refine ⟨?_, ?_, ?_, invokedUpToFirstRaiser_all c.stateCallbacks, ?_⟩
  · rw [setState_cases]
    split <;> rfl
  · rw [setState_cases]
    split <;> rfl
  · intro hne
    rw [setState_cases]
    rw [if_pos hne]
    exact ⟨rfl, rfl⟩
  · intro b ns' r' hnd
    unfold BaseSocket.setState
    rw [hnd]
    cases hcb : b.stateCallback <;> cases r' <;> simp [Option.getD, BaseSocket.isDone]
      <;> split <;> simp

/-- C4 witness: with two non-raising callbacks and a real transition, both
callbacks run, in order, and the stored state is the new one. -/
theorem C4_setState_behavior_witness :
    (setState ⟨.Disconnected, "", [⟨5, false⟩, ⟨6, false⟩]⟩ .Connecting none).invoked = [5, 6] ∧
    (setState ⟨.Disconnected, "", [⟨5, false⟩, ⟨6, false⟩]⟩ .Connecting none).conn.state = .Connecting := by
  have h := C4_setState_behavior ⟨.Disconnected, "", [⟨5, false⟩, ⟨6, false⟩]⟩ .Connecting none
  refine ⟨?_, h.1⟩
  rw [(h.2.2.1 (by decide)).1, h.2.2.2.1 (by decide)]
  decide

/-- C10 counterexample: with three registered callbacks of which the middle
one raises, a change of both state and reason invokes only the first two
callbacks; the third registered callback is never invoked, contrary to the
claim that a change invokes every registered callback once. -/
theorem C10_counterexample :
    (setState ⟨.Disconnected, "", [⟨0, false⟩, ⟨1, true⟩, ⟨2, false⟩]⟩
        .Connecting (some "opening")).invoked = [0, 1] ∧
    ¬ (2 ∈ (setState ⟨.Disconnected, "", [⟨0, false⟩, ⟨1, true⟩, ⟨2, false⟩]⟩
        .Connecting (some "opening")).invoked) := by decide

/-- C10 amended: _setState runs the state callbacks if and only if the
observable (state, reason) pair changed - setting the same state with the
same reason invokes no callbacks - and on a change it invokes the registered
callbacks in order, each at most once, up to and including the first one
that raises; when no callback raises, every registered callback is invoked
exactly once. -/
theorem C10_callbacks_iff_changed (c : Conn) (ns : ConnState) (r : Option String) :
    ((c.state, c.reason) = (ns, r.getD c.reason) →
      (setState c ns r).invoked = [] ∧ (setState c ns r).raised = none) ∧
    ((c.state, c.reason) ≠ (ns, r.getD c.reason) →
      (setState c ns r).invoked = invokedUpToFirstRaiser c.stateCallbacks ∧
      ((∀ cb ∈ c.stateCallbacks, cb.raises = false) →
        (setState c ns r).invoked = c.stateCallbacks.map StateCallback.id)) := by
  constructor
  · intro heq
    rw [setState_cases, if_neg (by simp [heq])]
    exact ⟨rfl, rfl⟩
  · intro hne
    have hinv : (setState c ns r).invoked = invokedUpToFirstRaiser c.stateCallbacks := by
      rw [setState_cases, if_pos hne]
    exact ⟨hinv, fun h => by rw [hinv, invokedUpToFirstRaiser_all c.stateCallbacks h]⟩

/-- C10 witness: an unchanged (state, reason) pair invokes no callbacks, and
a changed pair with two non-raising callbacks invokes both exactly once. -/
theorem C10_callbacks_iff_changed_witness :
    (setState ⟨.Disconnected, "x", [⟨7, false⟩]⟩ .Disconnected (some "x")).invoked = [] ∧
    (setState ⟨.Disconnected, "x", [⟨7, false⟩, ⟨8, false⟩]⟩ .Connecting (some "x")).invoked = [7, 8] := by
  constructor
  · exact ((C10_callbacks_iff_changed ⟨.Disconnected, "x", [⟨7, false⟩]⟩
      .Disconnected (some "x")).1 (by decide)).1
  · rw [(C10_callbacks_iff_changed ⟨.Disconnected, "x", [⟨7, false⟩, ⟨8, false⟩]⟩
      .Connecting (some "x")).2 (by decide) |>.2 (by decide)]
    decide

end TCPConnection

end RO
